import Mathlib

/-!
Verification development for the device-cloud packet codec
(`digi/xbee/packets/devicecloud.py`).

The six packet classes are embedded as Lean structures; each class's
constructor (`__init__`), property setters, `_get_api_packet_spec_data`
and `create_packet` are translated into executable functions.  Python
byte sequences are `List Nat` (each element a byte value), Python
strings are `UStr` (lists of Unicode code points), Python slices are
`pySlice`/`pySliceToLast` (clamping, as in Python), and exceptions are
the `Except` monad over the `CodecError` taxonomy.
-/

/-- A Python string, as its list of Unicode code points (`len` in Python
counts code points, not UTF-8 bytes, which matters in this module). -/
abbrev UStr := List Nat

/-- Error taxonomy for the codec: range and length validation failures
(Python `ValueError`), decode failures (Python `InvalidPacketException`,
split by cause), invalid UTF-8 (`UnicodeDecodeError`), unsupported
operating mode (`InvalidOperatingModeException`), uncaught Python
`IndexError` from an out-of-range subscript, and envelope-level framing
failures. -/
inductive CodecError where
  | RangeViolation
  | LengthViolation
  | FrameTypeMismatch
  | TruncatedField
  | EncodingError
  | UnsupportedMode
  | IndexOutOfRange
  | FramingError
deriving DecidableEq, Repr

/-- UTF-8 encoding of one Unicode code point. -/
def utf8EncodeChar (c : Nat) : List Nat :=
  if c < 0x80 then [c]
  else if c < 0x800 then [0xC0 + c / 64, 0x80 + c % 64]
  else if c < 0x10000 then [0xE0 + c / 4096, 0x80 + (c / 64) % 64, 0x80 + c % 64]
  else [0xF0 + c / 262144, 0x80 + (c / 4096) % 64, 0x80 + (c / 64) % 64, 0x80 + c % 64]

/-- UTF-8 encoding of a Python string (`bytearray(s, encoding="utf8")`). -/
def utf8Encode (s : UStr) : List Nat := (s.map utf8EncodeChar).flatten

instance exceptDecEq {ε α : Type} [DecidableEq ε] [DecidableEq α] :
    DecidableEq (Except ε α) := fun a b =>
  match a, b with
  | Except.error e, Except.error f =>
    if h : e = f then isTrue (by rw [h])
    else isFalse (by intro hc; injection hc; contradiction)
  | Except.error _, Except.ok _ => isFalse (by intro hc; exact Except.noConfusion hc)
  | Except.ok _, Except.error _ => isFalse (by intro hc; exact Except.noConfusion hc)
  | Except.ok v, Except.ok w =>
    if h : v = w then isTrue (by rw [h])
    else isFalse (by intro hc; injection hc; contradiction)

/-- Is `b` a UTF-8 continuation byte? -/
def utf8Cont (b : Nat) : Bool := 0x80 ≤ b && b < 0xC0

/-- Scalar value of a 2-byte UTF-8 sequence. -/
def utf8Val2 (b b2 : Nat) : Nat := (b - 0xC0) * 64 + (b2 - 0x80)

/-- Scalar value of a 3-byte UTF-8 sequence. -/
def utf8Val3 (b b2 b3 : Nat) : Nat := (b - 0xE0) * 4096 + (b2 - 0x80) * 64 + (b3 - 0x80)

/-- Scalar value of a 4-byte UTF-8 sequence. -/
def utf8Val4 (b b2 b3 b4 : Nat) : Nat :=
  (b - 0xF0) * 262144 + (b2 - 0x80) * 4096 + (b3 - 0x80) * 64 + (b4 - 0x80)

/-- Validity of a 3-byte UTF-8 sequence: continuation bytes, no overlong
form, no surrogate. -/
def utf8Valid3 (b b2 b3 : Nat) : Bool :=
  utf8Cont b2 && utf8Cont b3 && decide (0x800 ≤ utf8Val3 b b2 b3) &&
    !(decide (0xD800 ≤ utf8Val3 b b2 b3) && decide (utf8Val3 b b2 b3 ≤ 0xDFFF))

/-- Validity of a 4-byte UTF-8 sequence: continuation bytes, no overlong
form, in Unicode range. -/
def utf8Valid4 (b b2 b3 b4 : Nat) : Bool :=
  utf8Cont b2 && utf8Cont b3 && utf8Cont b4 &&
    decide (0x10000 ≤ utf8Val4 b b2 b3 b4) && decide (utf8Val4 b b2 b3 b4 ≤ 0x10FFFF)

/-- Decoding of one UTF-8 scalar starting with byte `b`: the scalar and
the remaining bytes, or `none` on invalid input. -/
def utf8Step (b : Nat) (rest : List Nat) : Option (Nat × List Nat) :=
  if b < 0x80 then some (b, rest)
  else if 0xC2 ≤ b && b ≤ 0xDF then
    match rest with
    | b2 :: rest2 => if utf8Cont b2 then some (utf8Val2 b b2, rest2) else none
    | [] => none
  else if 0xE0 ≤ b && b ≤ 0xEF then
    match rest with
    | b2 :: b3 :: rest2 => if utf8Valid3 b b2 b3 then some (utf8Val3 b b2 b3, rest2) else none
    | _ => none
  else if 0xF0 ≤ b && b ≤ 0xF4 then
    match rest with
    | b2 :: b3 :: b4 :: rest2 =>
      if utf8Valid4 b b2 b3 b4 then some (utf8Val4 b b2 b3 b4, rest2) else none
    | _ => none
  else none

/-- UTF-8 decoding worker: `fuel` bounds the number of scalars (the caller
passes the byte count; every scalar consumes at least one byte, so the
fuel never runs out on the caller's inputs). -/
def utf8DecodeAux : Nat → List Nat → Option UStr
  | _, [] => some []
  | 0, _ :: _ => none
  | fuel + 1, b :: rest =>
    match utf8Step b rest with
    | none => none
    | some (c, l2) => (utf8DecodeAux fuel l2).map (c :: ·)

/-- UTF-8 decoding of a byte list (`bytes.decode("utf8")`): `none` models a
`UnicodeDecodeError` (truncated sequence, bad continuation byte, overlong
form, surrogate, or out-of-range code point). -/
def utf8Decode (l : List Nat) : Option UStr := utf8DecodeAux l.length l

/-- Modelled from the spec: the frame-type code registry (`ApiFrameType`,
external to this core) assigns each kind a one-byte code; the values are
the on-wire codes of the six device-cloud kinds. -/
def frameTypeDeviceRequest : Nat := 0xB9

def frameTypeDeviceResponse : Nat := 0x2A

def frameTypeDeviceResponseStatus : Nat := 0xBA

def frameTypeFrameError : Nat := 0xFE

def frameTypeSendDataRequest : Nat := 0x28

def frameTypeSendDataResponse : Nat := 0xB8

/-- Modelled from the spec: the `DeviceCloudStatus` code registry (external)
is a total map carrying the raw one-byte code, with an explicit
"unrecognized code" carrier, so `get` is total and `(get c).code = c`. -/
structure DeviceCloudStatus where
  code : Nat
deriving DecidableEq, Repr

/-- Modelled from the spec: total registry lookup for `DeviceCloudStatus`. -/
def DeviceCloudStatus.get (c : Nat) : DeviceCloudStatus := ⟨c⟩

/-- Modelled from the spec: the `FrameError` code registry (external),
total with an unknown-code carrier. -/
structure FrameError where
  code : Nat
deriving DecidableEq, Repr

/-- Modelled from the spec: total registry lookup for `FrameError`. -/
def FrameError.get (c : Nat) : FrameError := ⟨c⟩

/-- Modelled from the spec: the `SendDataRequestOptions` code registry
(external), total with an unknown-code carrier. -/
structure SendDataRequestOptions where
  code : Nat
deriving DecidableEq, Repr

/-- Modelled from the spec: total registry lookup for `SendDataRequestOptions`. -/
def SendDataRequestOptions.get (c : Nat) : SendDataRequestOptions := ⟨c⟩

/-- The operating modes relevant to `create_packet` (`OperatingMode`). -/
inductive OperatingMode where
  | AT_MODE
  | API_MODE
  | ESCAPED_API_MODE
deriving DecidableEq, Repr

/-- Modelled from the spec: `utils.int_to_bytes(x, num_bytes=1)` yields the
low byte of `x` (big-endian, truncated to one byte). -/
def int_to_bytes1 (n : Nat) : List Nat := [n % 256]

/-- Python slice `l[a:b]` with nonnegative bounds: clamping, never failing. -/
def pySlice (l : List Nat) (a b : Nat) : List Nat := (l.take b).drop a

/-- Python slice `l[a:-1]`: everything from index `a` up to (excluding) the
last element, clamping. -/
def pySliceToLast (l : List Nat) (a : Nat) : List Nat := l.dropLast.drop a

/-- Python subscript `l[i]`: raises `IndexError` when out of range. -/
def pyIdx (l : List Nat) (i : Nat) : Except CodecError Nat :=
  match l.get? i with
  | some v => Except.ok v
  | none => Except.error CodecError.IndexOutOfRange

/-- Modelled from the spec: the envelope checksum over the frame data
(`0xFF` minus the low byte of the byte sum). -/
def envChecksum (body : List Nat) : Nat := (0xFF - body.sum % 256) % 256

/-- Modelled from the spec: `Envelope.wrap(body)` builds the raw frame
handed to `create_packet`: start delimiter `0x7E`, 16-bit big-endian
length of the frame data, the frame data (`frame type + body fields`),
and the checksum byte. -/
def envWrap (body : List Nat) : List Nat :=
  0x7E :: (body.length / 256) % 256 :: body.length % 256 :: (body ++ [envChecksum body])

/-- Modelled from the spec: `XBeeAPIPacket._check_api_packet(raw, min_length)`
(external base class): rejects a frame shorter than the kind's minimum
length (surfaced as `TruncatedField` in the spec taxonomy), then checks
start delimiter, declared-vs-actual length, and checksum. -/
def check_api_packet (raw : List Nat) (min_length : Nat) : Except CodecError Unit :=
  if raw.length < min_length then Except.error CodecError.TruncatedField
  else if raw.headD 0 ≠ 0x7E then Except.error CodecError.FramingError
  else if (raw.getD 1 0) * 256 + raw.getD 2 0 ≠ raw.length - 4 then
    Except.error CodecError.FramingError
  else if raw.getLastD 0 ≠ envChecksum (raw.drop 3).dropLast then
    Except.error CodecError.FramingError
  else Except.ok ()

/-- `DeviceRequestPacket`: request_id, the two reserved bytes stored by the
constructor (`transport`, `flags`), the optional `target` text and the
optional `request_data` payload. -/
structure DeviceRequestPacket where
  req_id : Nat
  transport : Nat
  flags : Nat
  target : Option UStr
  req_data : Option (List Nat)
deriving DecidableEq, Repr

/-- `DeviceRequestPacket.__init__`: validates `request_id` in 0..255 and
`len(target) ≤ 255` (code-point count), stores `transport = flags = 0`. -/
def DeviceRequestPacket.init (request_id : Int) (target : Option UStr)
    (request_data : Option (List Nat)) : Except CodecError DeviceRequestPacket :=
  if request_id < 0 ∨ request_id > 255 then Except.error CodecError.RangeViolation
  else if (target.getD []).length > 255 ∧ target ≠ none then
    Except.error CodecError.LengthViolation
  else Except.ok ⟨request_id.toNat, 0, 0, target, request_data⟩

/-- `DeviceRequestPacket.request_id` setter. -/
def DeviceRequestPacket.set_request_id (p : DeviceRequestPacket) (request_id : Int) :
    Except CodecError DeviceRequestPacket :=
  if request_id < 0 ∨ request_id > 255 then Except.error CodecError.RangeViolation
  else Except.ok { p with req_id := request_id.toNat }

/-- `DeviceRequestPacket.target` setter: validates `len(target) ≤ 255`
(code-point count) when not `None`. -/
def DeviceRequestPacket.set_target (p : DeviceRequestPacket) (target : Option UStr) :
    Except CodecError DeviceRequestPacket :=
  if (target.getD []).length > 255 ∧ target ≠ none then
    Except.error CodecError.LengthViolation
  else Except.ok { p with target := target }

/-- `DeviceRequestPacket._get_api_packet_spec_data`: request id, transport,
flags, then `len(target)` (code-point count) and the UTF-8 bytes of
`target` (or a single `0x00` when `target is None`), then the payload. -/
def DeviceRequestPacket.spec_data (p : DeviceRequestPacket) : List Nat :=
  int_to_bytes1 p.req_id ++ int_to_bytes1 p.transport ++ int_to_bytes1 p.flags ++
  (match p.target with
   | some t => int_to_bytes1 t.length ++ utf8Encode t
   | none => int_to_bytes1 0) ++
  (match p.req_data with
   | some d => d
   | none => [])

/-- Modelled from the spec: the frame body of a packet is the frame-type
byte followed by the spec data (`needs_id` is false for this kind, so no
frame-id byte is inserted by the external base class). -/
def DeviceRequestPacket.encodeBody (p : DeviceRequestPacket) : List Nat :=
  frameTypeDeviceRequest :: p.spec_data

/-- `DeviceRequestPacket.create_packet(raw, operating_mode)`: mode check,
`_check_api_packet` with minimum raw length 9, frame-type check at
`raw[3]`, then `target_length = raw[7]`, `target = raw[8:8+target_length]`
decoded as UTF-8, and `request_data = raw[8+target_length:-1]` when
`len(raw) > 9` else `None`. -/
def DeviceRequestPacket.create_packet (raw : List Nat) (operating_mode : OperatingMode) :
    Except CodecError DeviceRequestPacket :=
  if operating_mode ≠ OperatingMode.ESCAPED_API_MODE ∧
      operating_mode ≠ OperatingMode.API_MODE then
    Except.error CodecError.UnsupportedMode
  else match check_api_packet raw 9 with
  | Except.error e => Except.error e
  | Except.ok _ =>
    match pyIdx raw 3 with
    | Except.error e => Except.error e
    | Except.ok b3 =>
      if b3 ≠ frameTypeDeviceRequest then Except.error CodecError.FrameTypeMismatch
      else match pyIdx raw 7 with
      | Except.error e => Except.error e
      | Except.ok target_length =>
        match pyIdx raw 4 with
        | Except.error e => Except.error e
        | Except.ok rid =>
          match utf8Decode (pySlice raw 8 (8 + target_length)) with
          | none => Except.error CodecError.EncodingError
          | some target =>
            DeviceRequestPacket.init (rid : Int) (some target)
              (if raw.length > 9 then some (pySliceToLast raw (8 + target_length))
               else none)

/-- Decoding a body slice for this kind: wrap the body in the (external)
envelope and run `create_packet` in API mode. -/
def DeviceRequestPacket.decodeBody (body : List Nat) : Except CodecError DeviceRequestPacket :=
  DeviceRequestPacket.create_packet (envWrap body) OperatingMode.API_MODE

example : DeviceRequestPacket.decodeBody [0xB9, 1, 0, 0, 1, 97] =
    Except.ok ⟨1, 0, 0, some [97], some []⟩ := by decide

example : DeviceRequestPacket.decodeBody [0xB9, 5, 0, 0, 0] =
    Except.ok ⟨5, 0, 0, some [], none⟩ := by decide

example : DeviceRequestPacket.decodeBody [0xB9, 1, 0, 0, 10, 97, 98, 99] =
    Except.ok ⟨1, 0, 0, some [97, 98, 99, 21], some []⟩ := by decide

example : DeviceRequestPacket.decodeBody [0xB9, 0, 0, 0] =
    Except.error CodecError.TruncatedField := by decide

/-- `DeviceResponsePacket`: frame_id, request_id and the optional
`response_data` payload. -/
structure DeviceResponsePacket where
  frame_id : Nat
  req_id : Nat
  resp_data : Option (List Nat)
deriving DecidableEq, Repr

/-- `DeviceResponsePacket.__init__`: validates `frame_id` and `request_id`
in 0..255. -/
def DeviceResponsePacket.init (frame_id request_id : Int)
    (response_data : Option (List Nat)) : Except CodecError DeviceResponsePacket :=
  if frame_id < 0 ∨ frame_id > 255 then Except.error CodecError.RangeViolation
  else if request_id < 0 ∨ request_id > 255 then Except.error CodecError.RangeViolation
  else Except.ok ⟨frame_id.toNat, request_id.toNat, response_data⟩

/-- `DeviceResponsePacket.request_id` setter. -/
def DeviceResponsePacket.set_request_id (p : DeviceResponsePacket) (request_id : Int) :
    Except CodecError DeviceResponsePacket :=
  if request_id < 0 ∨ request_id > 255 then Except.error CodecError.RangeViolation
  else Except.ok { p with req_id := request_id.toNat }

/-- Modelled from the spec: the `frame_id` mutator lives in the external
base class and re-validates the 0..255 range before committing. -/
def DeviceResponsePacket.set_frame_id (p : DeviceResponsePacket) (frame_id : Int) :
    Except CodecError DeviceResponsePacket :=
  if frame_id < 0 ∨ frame_id > 255 then Except.error CodecError.RangeViolation
  else Except.ok { p with frame_id := frame_id.toNat }

/-- `DeviceResponsePacket._get_api_packet_spec_data`: request id, a
reserved `0x00`, then the payload. -/
def DeviceResponsePacket.spec_data (p : DeviceResponsePacket) : List Nat :=
  int_to_bytes1 p.req_id ++ int_to_bytes1 0 ++
  (match p.resp_data with
   | some d => d
   | none => [])

/-- Modelled from the spec: frame body = type byte, then the frame id
(`needs_id` is true, inserted by the external base class), then spec data. -/
def DeviceResponsePacket.encodeBody (p : DeviceResponsePacket) : List Nat :=
  frameTypeDeviceResponse :: int_to_bytes1 p.frame_id ++ p.spec_data

/-- `DeviceResponsePacket.create_packet(raw, operating_mode)`: mode check,
`_check_api_packet` with minimum raw length 8, frame-type check at
`raw[3]`, then frame id at `raw[4]`, request id at `raw[5]`, and
`response_data = raw[7:-1]` when `len(raw) > 8` else `None`. -/
def DeviceResponsePacket.create_packet (raw : List Nat) (operating_mode : OperatingMode) :
    Except CodecError DeviceResponsePacket :=
  if operating_mode ≠ OperatingMode.ESCAPED_API_MODE ∧
      operating_mode ≠ OperatingMode.API_MODE then
    Except.error CodecError.UnsupportedMode
  else match check_api_packet raw 8 with
  | Except.error e => Except.error e
  | Except.ok _ =>
    match pyIdx raw 3 with
    | Except.error e => Except.error e
    | Except.ok b3 =>
      if b3 ≠ frameTypeDeviceResponse then Except.error CodecError.FrameTypeMismatch
      else match pyIdx raw 4 with
      | Except.error e => Except.error e
      | Except.ok fid =>
        match pyIdx raw 5 with
        | Except.error e => Except.error e
        | Except.ok rid =>
          DeviceResponsePacket.init (fid : Int) (rid : Int)
            (if raw.length > 8 then some (pySliceToLast raw 7) else none)

/-- Decoding a body slice for this kind. -/
def DeviceResponsePacket.decodeBody (body : List Nat) : Except CodecError DeviceResponsePacket :=
  DeviceResponsePacket.create_packet (envWrap body) OperatingMode.API_MODE

/-- `DeviceResponseStatusPacket`: frame_id and the device-cloud status. -/
structure DeviceResponseStatusPacket where
  frame_id : Nat
  status : DeviceCloudStatus
deriving DecidableEq, Repr

/-- `DeviceResponseStatusPacket.__init__`: validates `frame_id` in 0..255. -/
def DeviceResponseStatusPacket.init (frame_id : Int) (status : DeviceCloudStatus) :
    Except CodecError DeviceResponseStatusPacket :=
  if frame_id < 0 ∨ frame_id > 255 then Except.error CodecError.RangeViolation
  else Except.ok ⟨frame_id.toNat, status⟩

/-- Modelled from the spec: the `frame_id` mutator lives in the external
base class and re-validates the 0..255 range before committing. -/
def DeviceResponseStatusPacket.set_frame_id (p : DeviceResponseStatusPacket) (frame_id : Int) :
    Except CodecError DeviceResponseStatusPacket :=
  if frame_id < 0 ∨ frame_id > 255 then Except.error CodecError.RangeViolation
  else Except.ok { p with frame_id := frame_id.toNat }

/-- `DeviceResponseStatusPacket._get_api_packet_spec_data`: one status byte. -/
def DeviceResponseStatusPacket.spec_data (p : DeviceResponseStatusPacket) : List Nat :=
  int_to_bytes1 p.status.code

/-- Modelled from the spec: frame body = type byte, frame id, spec data. -/
def DeviceResponseStatusPacket.encodeBody (p : DeviceResponseStatusPacket) : List Nat :=
  frameTypeDeviceResponseStatus :: int_to_bytes1 p.frame_id ++ p.spec_data

/-- `DeviceResponseStatusPacket.create_packet(raw, operating_mode)`: mode
check, `_check_api_packet` with minimum raw length 7, frame-type check,
then frame id at `raw[4]` and `DeviceCloudStatus.get(raw[5])`. -/
def DeviceResponseStatusPacket.create_packet (raw : List Nat)
    (operating_mode : OperatingMode) : Except CodecError DeviceResponseStatusPacket :=
  if operating_mode ≠ OperatingMode.ESCAPED_API_MODE ∧
      operating_mode ≠ OperatingMode.API_MODE then
    Except.error CodecError.UnsupportedMode
  else match check_api_packet raw 7 with
  | Except.error e => Except.error e
  | Except.ok _ =>
    match pyIdx raw 3 with
    | Except.error e => Except.error e
    | Except.ok b3 =>
      if b3 ≠ frameTypeDeviceResponseStatus then Except.error CodecError.FrameTypeMismatch
      else match pyIdx raw 4 with
      | Except.error e => Except.error e
      | Except.ok fid =>
        match pyIdx raw 5 with
        | Except.error e => Except.error e
        | Except.ok sc =>
          DeviceResponseStatusPacket.init (fid : Int) (DeviceCloudStatus.get sc)

/-- Decoding a body slice for this kind. -/
def DeviceResponseStatusPacket.decodeBody (body : List Nat) :
    Except CodecError DeviceResponseStatusPacket :=
  DeviceResponseStatusPacket.create_packet (envWrap body) OperatingMode.API_MODE

/-- `FrameErrorPacket`: the frame error symbol. -/
structure FrameErrorPacket where
  frame_error : FrameError
deriving DecidableEq, Repr

/-- `FrameErrorPacket.__init__`: no validation. -/
def FrameErrorPacket.init (frame_error : FrameError) : FrameErrorPacket :=
  ⟨frame_error⟩

/-- `FrameErrorPacket._get_api_packet_spec_data`: one error byte. -/
def FrameErrorPacket.spec_data (p : FrameErrorPacket) : List Nat :=
  int_to_bytes1 p.frame_error.code

/-- Modelled from the spec: frame body = type byte plus spec data
(`needs_id` is false for this kind). -/
def FrameErrorPacket.encodeBody (p : FrameErrorPacket) : List Nat :=
  frameTypeFrameError :: p.spec_data

/-- `FrameErrorPacket.create_packet(raw, operating_mode)`: mode check,
`_check_api_packet` with minimum raw length 6, frame-type check, then
`FrameError.get(raw[4])`. -/
def FrameErrorPacket.create_packet (raw : List Nat) (operating_mode : OperatingMode) :
    Except CodecError FrameErrorPacket :=
  if operating_mode ≠ OperatingMode.ESCAPED_API_MODE ∧
      operating_mode ≠ OperatingMode.API_MODE then
    Except.error CodecError.UnsupportedMode
  else match check_api_packet raw 6 with
  | Except.error e => Except.error e
  | Except.ok _ =>
    match pyIdx raw 3 with
    | Except.error e => Except.error e
    | Except.ok b3 =>
      if b3 ≠ frameTypeFrameError then Except.error CodecError.FrameTypeMismatch
      else match pyIdx raw 4 with
      | Except.error e => Except.error e
      | Except.ok ec => Except.ok (FrameErrorPacket.init (FrameError.get ec))

/-- Decoding a body slice for this kind. -/
def FrameErrorPacket.decodeBody (body : List Nat) : Except CodecError FrameErrorPacket :=
  FrameErrorPacket.create_packet (envWrap body) OperatingMode.API_MODE

/-- `SendDataRequestPacket`: frame_id, optional `path` and `content_type`
texts, the reserved transport byte, the upload options and the optional
`file_data` payload. -/
structure SendDataRequestPacket where
  frame_id : Nat
  path : Option UStr
  content_type : Option UStr
  transport : Nat
  opts : SendDataRequestOptions
  file_data : Option (List Nat)
deriving DecidableEq, Repr

/-- `SendDataRequestPacket.__init__`: validates `frame_id` in 0..255 only;
`path` and `content_type` are stored without any length validation. -/
def SendDataRequestPacket.init (frame_id : Int) (path content_type : Option UStr)
    (options : SendDataRequestOptions) (file_data : Option (List Nat)) :
    Except CodecError SendDataRequestPacket :=
  if frame_id < 0 ∨ frame_id > 255 then Except.error CodecError.RangeViolation
  else Except.ok ⟨frame_id.toNat, path, content_type, 0, options, file_data⟩

/-- Modelled from the spec: the `frame_id` mutator lives in the external
base class and re-validates the 0..255 range before committing. -/
def SendDataRequestPacket.set_frame_id (p : SendDataRequestPacket) (frame_id : Int) :
    Except CodecError SendDataRequestPacket :=
  if frame_id < 0 ∨ frame_id > 255 then Except.error CodecError.RangeViolation
  else Except.ok { p with frame_id := frame_id.toNat }

/-- `SendDataRequestPacket.path` setter: no validation, always commits. -/
def SendDataRequestPacket.set_path (p : SendDataRequestPacket) (path : Option UStr) :
    SendDataRequestPacket :=
  { p with path := path }

/-- `SendDataRequestPacket.content_type` setter: no validation, always
commits. -/
def SendDataRequestPacket.set_content_type (p : SendDataRequestPacket)
    (content_type : Option UStr) : SendDataRequestPacket :=
  { p with content_type := content_type }

/-- `SendDataRequestPacket._get_api_packet_spec_data`: `len(path)`
(code-point count) and UTF-8 bytes of `path` (single `0x00` when `None`),
the same for `content_type`, a literal `0x00` transport byte, the options
code, then the payload. -/
def SendDataRequestPacket.spec_data (p : SendDataRequestPacket) : List Nat :=
  (match p.path with
   | some t => int_to_bytes1 t.length ++ utf8Encode t
   | none => int_to_bytes1 0) ++
  (match p.content_type with
   | some t => int_to_bytes1 t.length ++ utf8Encode t
   | none => int_to_bytes1 0) ++
  int_to_bytes1 0 ++ int_to_bytes1 p.opts.code ++
  (match p.file_data with
   | some d => d
   | none => [])

/-- Modelled from the spec: frame body = type byte, frame id, spec data. -/
def SendDataRequestPacket.encodeBody (p : SendDataRequestPacket) : List Nat :=
  frameTypeSendDataRequest :: int_to_bytes1 p.frame_id ++ p.spec_data

/-- `SendDataRequestPacket.create_packet(raw, operating_mode)`: mode check,
`_check_api_packet` with minimum raw length 10, frame-type check, then
`path_length = raw[5]`, `content_type_length = raw[6+path_length]` (a
plain subscript, so it can raise `IndexError`), frame id at `raw[4]`,
`path` and `content_type` decoded from their slices,
`SendDataRequestOptions.get(raw[6+path_length+2+content_type_length])`
(again a plain subscript), and
`file_data = raw[6+path_length+3+content_type_length:-1]` always. -/
def SendDataRequestPacket.create_packet (raw : List Nat) (operating_mode : OperatingMode) :
    Except CodecError SendDataRequestPacket :=
  if operating_mode ≠ OperatingMode.ESCAPED_API_MODE ∧
      operating_mode ≠ OperatingMode.API_MODE then
    Except.error CodecError.UnsupportedMode
  else match check_api_packet raw 10 with
  | Except.error e => Except.error e
  | Except.ok _ =>
    match pyIdx raw 3 with
    | Except.error e => Except.error e
    | Except.ok b3 =>
      if b3 ≠ frameTypeSendDataRequest then Except.error CodecError.FrameTypeMismatch
      else match pyIdx raw 5 with
      | Except.error e => Except.error e
      | Except.ok path_length =>
        match pyIdx raw (6 + path_length) with
        | Except.error e => Except.error e
        | Except.ok content_type_length =>
          match pyIdx raw 4 with
          | Except.error e => Except.error e
          | Except.ok fid =>
            match utf8Decode (pySlice raw 6 (6 + path_length)) with
            | none => Except.error CodecError.EncodingError
            | some path =>
              match utf8Decode (pySlice raw (6 + path_length + 1)
                  (6 + path_length + 1 + content_type_length)) with
              | none => Except.error CodecError.EncodingError
              | some content_type =>
                match pyIdx raw (6 + path_length + 2 + content_type_length) with
                | Except.error e => Except.error e
                | Except.ok oc =>
                  SendDataRequestPacket.init (fid : Int) (some path) (some content_type)
                    (SendDataRequestOptions.get oc)
                    (some (pySliceToLast raw (6 + path_length + 3 + content_type_length)))

/-- Decoding a body slice for this kind. -/
def SendDataRequestPacket.decodeBody (body : List Nat) :
    Except CodecError SendDataRequestPacket :=
  SendDataRequestPacket.create_packet (envWrap body) OperatingMode.API_MODE

/-- `SendDataResponsePacket`: frame_id and the device-cloud status. -/
structure SendDataResponsePacket where
  frame_id : Nat
  status : DeviceCloudStatus
deriving DecidableEq, Repr

/-- `SendDataResponsePacket.__init__`: validates `frame_id` in 0..255. -/
def SendDataResponsePacket.init (frame_id : Int) (status : DeviceCloudStatus) :
    Except CodecError SendDataResponsePacket :=
  if frame_id < 0 ∨ frame_id > 255 then Except.error CodecError.RangeViolation
  else Except.ok ⟨frame_id.toNat, status⟩

/-- Modelled from the spec: the `frame_id` mutator lives in the external
base class and re-validates the 0..255 range before committing. -/
def SendDataResponsePacket.set_frame_id (p : SendDataResponsePacket) (frame_id : Int) :
    Except CodecError SendDataResponsePacket :=
  if frame_id < 0 ∨ frame_id > 255 then Except.error CodecError.RangeViolation
  else Except.ok { p with frame_id := frame_id.toNat }

/-- `SendDataResponsePacket._get_api_packet_spec_data`: one status byte. -/
def SendDataResponsePacket.spec_data (p : SendDataResponsePacket) : List Nat :=
  int_to_bytes1 p.status.code

/-- Modelled from the spec: frame body = type byte, frame id, spec data. -/
def SendDataResponsePacket.encodeBody (p : SendDataResponsePacket) : List Nat :=
  frameTypeSendDataResponse :: int_to_bytes1 p.frame_id ++ p.spec_data

/-- `SendDataResponsePacket.create_packet(raw, operating_mode)`: mode check,
`_check_api_packet` with minimum raw length 7, frame-type check, then
frame id at `raw[4]` and `DeviceCloudStatus.get(raw[5])`. -/
def SendDataResponsePacket.create_packet (raw : List Nat) (operating_mode : OperatingMode) :
    Except CodecError SendDataResponsePacket :=
  if operating_mode ≠ OperatingMode.ESCAPED_API_MODE ∧
      operating_mode ≠ OperatingMode.API_MODE then
    Except.error CodecError.UnsupportedMode
  else match check_api_packet raw 7 with
  | Except.error e => Except.error e
  | Except.ok _ =>
    match pyIdx raw 3 with
    | Except.error e => Except.error e
    | Except.ok b3 =>
      if b3 ≠ frameTypeSendDataResponse then Except.error CodecError.FrameTypeMismatch
      else match pyIdx raw 4 with
      | Except.error e => Except.error e
      | Except.ok fid =>
        match pyIdx raw 5 with
        | Except.error e => Except.error e
        | Except.ok sc =>
          SendDataResponsePacket.init (fid : Int) (DeviceCloudStatus.get sc)

/-- Decoding a body slice for this kind. -/
def SendDataResponsePacket.decodeBody (body : List Nat) :
    Except CodecError SendDataResponsePacket :=
  SendDataResponsePacket.create_packet (envWrap body) OperatingMode.API_MODE

example : SendDataRequestPacket.decodeBody [0x28, 3, 1, 97, 1, 98, 0, 0, 1, 2] =
    Except.ok ⟨3, some [97], some [98], 0, ⟨0⟩, some [1, 2]⟩ := by decide

example : SendDataRequestPacket.decodeBody [0x28, 3, 0, 0, 0, 5] =
    Except.ok ⟨3, some [], some [], 0, ⟨5⟩, some []⟩ := by decide

example : SendDataRequestPacket.decodeBody [0x28, 1, 10, 97, 98, 99] =
    Except.error CodecError.IndexOutOfRange := by decide

example : DeviceResponsePacket.decodeBody [0x2A, 7, 9, 0] =
    Except.ok ⟨7, 9, none⟩ := by decide

example : DeviceResponsePacket.decodeBody [0x2A, 7, 9, 0, 5, 6] =
    Except.ok ⟨7, 9, some [5, 6]⟩ := by decide

example : DeviceResponseStatusPacket.decodeBody [0xBA, 7, 0] =
    Except.ok ⟨7, ⟨0⟩⟩ := by decide

example : FrameErrorPacket.decodeBody [0xFE, 2] = Except.ok ⟨⟨2⟩⟩ := by decide

example : SendDataResponsePacket.decodeBody [0xB8, 7, 255] =
    Except.ok ⟨7, ⟨255⟩⟩ := by decide

example :
    (DeviceResponseStatusPacket.decodeBody
      (DeviceResponseStatusPacket.encodeBody ⟨7, ⟨0⟩⟩)) = Except.ok ⟨7, ⟨0⟩⟩ := by decide

/-- A heap of Python `bytearray` objects: buffer `r` lives at `bufs[r]`.
Used to model the object-identity (aliasing) semantics of the payload
fields, which Lean's value semantics cannot express directly. -/
structure Store where
  bufs : List (List Nat)
deriving DecidableEq, Repr

/-- Contents of buffer `r`. -/
def Store.read (s : Store) (r : Nat) : List Nat := s.bufs.getD r []

/-- In-place mutation of buffer `r` (what Python code holding any alias of
the bytearray observes). -/
def Store.write (s : Store) (r : Nat) (v : List Nat) : Store := ⟨s.bufs.set r v⟩

/-- Allocation of a fresh bytearray with contents `v`; returns the new
store and the new reference. -/
def Store.alloc (s : Store) (v : List Nat) : Store × Nat :=
  (⟨s.bufs ++ [v]⟩, s.bufs.length)

/-- Aliasing model of `DeviceRequestPacket`: `req_data` holds a reference
to a bytearray object in the `Store`. -/
structure DeviceRequestMem where
  req_id : Nat
  target : Option UStr
  req_data : Option Nat
deriving DecidableEq, Repr

/-- `DeviceRequestPacket.__init__` binds the caller's `request_data`
object itself (`self.__req_data = request_data`): no copy is taken. -/
def DeviceRequestMem.init (request_id : Nat) (target : Option UStr)
    (request_data : Option Nat) : DeviceRequestMem :=
  ⟨request_id, target, request_data⟩

/-- `request_data` getter: returns `self.__req_data.copy()`, a freshly
allocated buffer holding the same contents (or `None`). -/
def DeviceRequestMem.request_data_get (s : Store) (p : DeviceRequestMem) :
    Store × Option Nat :=
  match p.req_data with
  | none => (s, none)
  | some r => ((s.alloc (s.read r)).1, some (s.alloc (s.read r)).2)

/-- `request_data` setter: stores `request_data.copy()` (or `None`). -/
def DeviceRequestMem.request_data_set (s : Store) (p : DeviceRequestMem)
    (request_data : Option Nat) : Store × DeviceRequestMem :=
  match request_data with
  | none => (s, { p with req_data := none })
  | some r => ((s.alloc (s.read r)).1, { p with req_data := some (s.alloc (s.read r)).2 })

/-- The packet's observable payload: the contents of its buffer. -/
def DeviceRequestMem.observe (s : Store) (p : DeviceRequestMem) : Option (List Nat) :=
  p.req_data.map s.read

/-- Aliasing model of `SendDataRequestPacket`: `file_data` holds a
reference to a bytearray object in the `Store`. -/
structure SendDataRequestMem where
  frame_id : Nat
  path : Option UStr
  content_type : Option UStr
  opts : SendDataRequestOptions
  file_data : Option Nat
deriving DecidableEq, Repr

/-- `SendDataRequestPacket.__init__` binds the caller's `file_data` object
itself (`self.__file_data = file_data`): no copy is taken. -/
def SendDataRequestMem.init (frame_id : Nat) (path content_type : Option UStr)
    (options : SendDataRequestOptions) (file_data : Option Nat) : SendDataRequestMem :=
  ⟨frame_id, path, content_type, options, file_data⟩

/-- `file_data` getter: returns `self.__file_data.copy()`. -/
def SendDataRequestMem.file_data_get (s : Store) (p : SendDataRequestMem) :
    Store × Option Nat :=
  match p.file_data with
  | none => (s, none)
  | some r => ((s.alloc (s.read r)).1, some (s.alloc (s.read r)).2)

/-- `file_data` setter: stores `file_data.copy()` (or `None`). -/
def SendDataRequestMem.file_data_set (s : Store) (p : SendDataRequestMem)
    (file_data : Option Nat) : Store × SendDataRequestMem :=
  match file_data with
  | none => (s, { p with file_data := none })
  | some r => ((s.alloc (s.read r)).1, { p with file_data := some (s.alloc (s.read r)).2 })

/-- The packet's observable payload: the contents of its buffer. -/
def SendDataRequestMem.observe (s : Store) (p : SendDataRequestMem) : Option (List Nat) :=
  p.file_data.map s.read

lemma utf8EncodeChar_ascii {c : Nat} (h : c < 0x80) : utf8EncodeChar c = [c] := by
  simp [utf8EncodeChar, h]

lemma utf8Encode_ascii {t : UStr} (h : ∀ c ∈ t, c < 0x80) : utf8Encode t = t := by
  induction t with
  | nil => rfl
  | cons c t ih =>
    have hc : c < 0x80 := h c (List.mem_cons_self c t)
    have ht : ∀ x ∈ t, x < 0x80 := fun x hx => h x (List.mem_cons_of_mem c hx)
    simp only [utf8Encode, List.map_cons, List.flatten_cons] at ih ⊢
    rw [utf8EncodeChar_ascii hc, ih ht]
    rfl

lemma utf8Step_ascii {c : Nat} (h : c < 0x80) (rest : List Nat) :
    utf8Step c rest = some (c, rest) := by
  simp [utf8Step, h]

lemma utf8DecodeAux_ascii : ∀ (fuel : Nat) (t : List Nat), t.length ≤ fuel →
    (∀ c ∈ t, c < 0x80) → utf8DecodeAux fuel t = some t := by
  intro fuel
  induction fuel with
  | zero =>
    intro t hlen _
    cases t with
    | nil => rfl
    | cons c t => simp at hlen
  | succ f ih =>
    intro t hlen h
    cases t with
    | nil => rfl
    | cons c t =>
      have hc : c < 0x80 := h c (List.mem_cons_self c t)
      have ht : ∀ x ∈ t, x < 0x80 := fun x hx => h x (List.mem_cons_of_mem c hx)
      have hl : t.length ≤ f := by simp [List.length_cons] at hlen; omega
      rw [utf8DecodeAux, utf8Step_ascii hc]
      simp only []
      rw [ih t hl ht]
      rfl

lemma utf8Decode_ascii {t : List Nat} (h : ∀ c ∈ t, c < 0x80) : utf8Decode t = some t :=
  utf8DecodeAux_ascii t.length t le_rfl h

lemma envWrap_length (b : List Nat) : (envWrap b).length = b.length + 4 := by
  simp [envWrap]

lemma envWrap_eq_concat (b : List Nat) :
    envWrap b = ([0x7E, (b.length / 256) % 256, b.length % 256] ++ b) ++ [envChecksum b] := by
  rw [List.append_assoc]
  rfl

lemma envWrap_dropLast (b : List Nat) :
    (envWrap b).dropLast = 0x7E :: (b.length / 256) % 256 :: b.length % 256 :: b := by
  rw [envWrap_eq_concat, List.dropLast_concat]
  rfl

lemma check_api_packet_envWrap (b : List Nat) (m : Nat) (hlen : b.length < 65536)
    (hmin : m ≤ b.length + 4) : check_api_packet (envWrap b) m = Except.ok () := by
  have h1 : (envWrap b).getD 1 0 = (b.length / 256) % 256 := rfl
  have h2 : (envWrap b).getD 2 0 = b.length % 256 := rfl
  have h3 : (envWrap b).getLastD 0 = envChecksum b := by
    rw [envWrap_eq_concat]
    exact List.getLastD_concat _ _ _
  have h4 : ((envWrap b).drop 3).dropLast = b := by
    have : (envWrap b).drop 3 = b ++ [envChecksum b] := rfl
    rw [this, List.dropLast_concat]
  unfold check_api_packet
  rw [if_neg (by rw [envWrap_length]; omega)]
  rw [if_neg (by simp [envWrap])]
  rw [if_neg (by rw [h1, h2, envWrap_length]; omega)]
  rw [if_neg (by rw [h3, h4]; simp)]

lemma check_api_packet_envWrap_short (b : List Nat) (m : Nat) (h : b.length + 4 < m) :
    check_api_packet (envWrap b) m = Except.error CodecError.TruncatedField := by
  unfold check_api_packet
  rw [if_pos (by rw [envWrap_length]; omega)]

lemma pyIdx_envWrap_head (b0 : Nat) (bs : List Nat) :
    pyIdx (envWrap (b0 :: bs)) 3 = Except.ok b0 := rfl

lemma get?_cons6 (x1 x2 x3 x4 x5 x6 : Nat) (l : List Nat) (n : Nat) :
    (x1 :: x2 :: x3 :: x4 :: x5 :: x6 :: l).get? (6 + n) = l.get? n := by
  rw [Nat.add_comm 6 n]
  simp [List.get?_cons_succ]

lemma get?_append_len (u l : List Nat) (a : Nat) :
    (u ++ l).get? (u.length + a) = l.get? a := by
  induction u with
  | nil => simp
  | cons x u ih =>
    rw [List.cons_append, List.length_cons,
      (by omega : u.length + 1 + a = (u.length + a) + 1), List.get?_cons_succ]
    exact ih

lemma drop_cons6 (x1 x2 x3 x4 x5 x6 : Nat) (l : List Nat) (n : Nat) :
    (x1 :: x2 :: x3 :: x4 :: x5 :: x6 :: l).drop (6 + n) = l.drop n := by
  rw [Nat.add_comm 6 n]
  simp [List.drop_succ_cons]

lemma drop_cons8 (x1 x2 x3 x4 x5 x6 x7 x8 : Nat) (l : List Nat) (n : Nat) :
    (x1 :: x2 :: x3 :: x4 :: x5 :: x6 :: x7 :: x8 :: l).drop (8 + n) = l.drop n := by
  rw [Nat.add_comm 8 n]
  simp [List.drop_succ_cons]

lemma pySlice_cons8 (x1 x2 x3 x4 x5 x6 x7 x8 : Nat) (l : List Nat) (n : Nat) :
    pySlice (x1 :: x2 :: x3 :: x4 :: x5 :: x6 :: x7 :: x8 :: l) 8 (8 + n) = l.take n := by
  unfold pySlice
  rw [Nat.add_comm 8 n]
  simp [List.take_succ_cons, List.drop_succ_cons]

lemma pySlice_cons6 (x1 x2 x3 x4 x5 x6 : Nat) (l : List Nat) (a b : Nat) :
    pySlice (x1 :: x2 :: x3 :: x4 :: x5 :: x6 :: l) (6 + a) (6 + b) = pySlice l a b := by
  unfold pySlice
  rw [Nat.add_comm 6 a, Nat.add_comm 6 b]
  simp [List.take_succ_cons, List.drop_succ_cons]

lemma pySlice_append_len (u l : List Nat) (a b : Nat) :
    pySlice (u ++ l) (u.length + a) (u.length + b) = pySlice l a b := by
  unfold pySlice
  rw [List.take_append_eq_append_take, List.take_of_length_le (by omega),
    (by omega : u.length + b - u.length = b), List.drop_append a]

lemma pySlice_cons1 (x : Nat) (l : List Nat) (n : Nat) :
    pySlice (x :: l) 1 (1 + n) = l.take n := by
  unfold pySlice
  rw [Nat.add_comm 1 n]
  simp [List.take_succ_cons]

lemma Store.read_write_ne (s : Store) (r1 r2 : Nat) (v : List Nat) (h : r2 ≠ r1) :
    (s.write r2 v).read r1 = s.read r1 := by
  simp [Store.read, Store.write, List.getD, List.getElem?_set_ne h]

lemma Store.read_alloc_lt (s : Store) (v : List Nat) (r : Nat) (h : r < s.bufs.length) :
    (s.alloc v).1.read r = s.read r := by
  simp [Store.read, Store.alloc, List.getD, List.getElem?_append, h]

lemma Store.read_alloc_new (s : Store) (v : List Nat) :
    (s.alloc v).1.read s.bufs.length = v := by
  simp [Store.read, Store.alloc, List.getD,
    List.getElem?_append_right (le_refl s.bufs.length)]

lemma dreq_decode_shape (rid : Nat) (t d : List Nat) (hrid : rid ≤ 255)
    (ht : ∀ c ∈ t, c < 0x80) (htl : t.length ≤ 255) (hnz : t.length + d.length ≠ 0)
    (hlen : t.length + d.length ≤ 65530) :
    DeviceRequestPacket.decodeBody
        (frameTypeDeviceRequest :: rid :: 0 :: 0 :: t.length :: (t ++ d))
      = Except.ok ⟨rid, 0, 0, some t, some d⟩ := by
  have hblen : (frameTypeDeviceRequest :: rid :: 0 :: 0 :: t.length :: (t ++ d)).length
      = t.length + d.length + 5 := by
    simp
  have hcheck : check_api_packet
      (envWrap (frameTypeDeviceRequest :: rid :: 0 :: 0 :: t.length :: (t ++ d))) 9
      = Except.ok () :=
    check_api_packet_envWrap _ _ (by rw [hblen]; omega) (by rw [hblen]; omega)
  have h3 : pyIdx (envWrap (frameTypeDeviceRequest :: rid :: 0 :: 0 :: t.length :: (t ++ d))) 3
      = Except.ok frameTypeDeviceRequest := rfl
  have h7 : pyIdx (envWrap (frameTypeDeviceRequest :: rid :: 0 :: 0 :: t.length :: (t ++ d))) 7
      = Except.ok t.length := rfl
  have h4 : pyIdx (envWrap (frameTypeDeviceRequest :: rid :: 0 :: 0 :: t.length :: (t ++ d))) 4
      = Except.ok rid := rfl
  have hsl : pySlice (envWrap (frameTypeDeviceRequest :: rid :: 0 :: 0 :: t.length :: (t ++ d)))
      8 (8 + t.length) = t := by
    have e : pySlice (envWrap (frameTypeDeviceRequest :: rid :: 0 :: 0 :: t.length :: (t ++ d)))
        8 (8 + t.length)
        = ((t ++ d) ++ [envChecksum (frameTypeDeviceRequest :: rid :: 0 :: 0 :: t.length :: (t ++ d))]).take t.length :=
      pySlice_cons8 _ _ _ _ _ _ _ _ _ _
    rw [e, List.append_assoc]
    exact List.take_left t _
  have hfd : pySliceToLast
      (envWrap (frameTypeDeviceRequest :: rid :: 0 :: 0 :: t.length :: (t ++ d)))
      (8 + t.length) = d := by
    unfold pySliceToLast
    rw [envWrap_dropLast, drop_cons8]
    exact List.drop_left t d
  have hgt : (envWrap (frameTypeDeviceRequest :: rid :: 0 :: 0 :: t.length :: (t ++ d))).length > 9 := by
    rw [envWrap_length, hblen]; omega
  unfold DeviceRequestPacket.decodeBody DeviceRequestPacket.create_packet
  rw [if_neg (by simp)]
  rw [hcheck]
  simp only []
  rw [h3]
  simp only []
  rw [if_neg (by simp)]
  rw [h7]
  simp only []
  rw [h4]
  simp only []
  rw [hsl, utf8Decode_ascii ht]
  simp only []
  rw [if_pos hgt, hfd]
  unfold DeviceRequestPacket.init
  rw [if_neg (by omega)]
  rw [if_neg (by simp; omega)]
  simp [Int.toNat_natCast]

lemma dreq_encode_shape (rid : Nat) (t d : List Nat) (hrid : rid ≤ 255)
    (ht : ∀ c ∈ t, c < 0x80) (htl : t.length ≤ 255) :
    DeviceRequestPacket.encodeBody ⟨rid, 0, 0, some t, some d⟩
      = frameTypeDeviceRequest :: rid :: 0 :: 0 :: t.length :: (t ++ d) := by
  simp [DeviceRequestPacket.encodeBody, DeviceRequestPacket.spec_data, int_to_bytes1,
    Nat.mod_eq_of_lt (show rid < 256 by omega),
    Nat.mod_eq_of_lt (show t.length < 256 by omega), utf8Encode_ascii ht]

lemma get?_append_self (u l : List Nat) : (u ++ l).get? u.length = l.get? 0 := by
  have := get?_append_len u l 0
  simpa using this

lemma pySlice_cons6_take (x1 x2 x3 x4 x5 x6 : Nat) (l : List Nat) (n : Nat) :
    pySlice (x1 :: x2 :: x3 :: x4 :: x5 :: x6 :: l) 6 (6 + n) = l.take n := by
  unfold pySlice
  rw [Nat.add_comm 6 n]
  simp [List.take_succ_cons, List.drop_succ_cons]

lemma dresp_decode_shape_some (fid rid : Nat) (d : List Nat) (hfid : fid ≤ 255)
    (hrid : rid ≤ 255) (hnz : d ≠ []) (hlen : d.length ≤ 65531) :
    DeviceResponsePacket.decodeBody (frameTypeDeviceResponse :: fid :: rid :: 0 :: d)
      = Except.ok ⟨fid, rid, some d⟩ := by
  have hblen : (frameTypeDeviceResponse :: fid :: rid :: 0 :: d).length = d.length + 4 := by
    simp
  have hcheck : check_api_packet (envWrap (frameTypeDeviceResponse :: fid :: rid :: 0 :: d)) 8
      = Except.ok () :=
    check_api_packet_envWrap _ _ (by rw [hblen]; omega) (by rw [hblen]; omega)
  have hresp : pySliceToLast (envWrap (frameTypeDeviceResponse :: fid :: rid :: 0 :: d)) 7
      = d := by
    unfold pySliceToLast
    rw [envWrap_dropLast]
    rfl
  have hgt : (envWrap (frameTypeDeviceResponse :: fid :: rid :: 0 :: d)).length > 8 := by
    rw [envWrap_length, hblen]
    have : d.length ≠ 0 := fun h => hnz (List.length_eq_zero.mp h)
    omega
  unfold DeviceResponsePacket.decodeBody DeviceResponsePacket.create_packet
  rw [if_neg (by simp)]
  rw [hcheck]
  simp only []
  rw [show pyIdx (envWrap (frameTypeDeviceResponse :: fid :: rid :: 0 :: d)) 3
      = Except.ok frameTypeDeviceResponse from rfl]
  simp only []
  rw [if_neg (by simp)]
  rw [show pyIdx (envWrap (frameTypeDeviceResponse :: fid :: rid :: 0 :: d)) 4
      = Except.ok fid from rfl]
  simp only []
  rw [show pyIdx (envWrap (frameTypeDeviceResponse :: fid :: rid :: 0 :: d)) 5
      = Except.ok rid from rfl]
  simp only []
  rw [if_pos hgt, hresp]
  unfold DeviceResponsePacket.init
  rw [if_neg (by omega)]
  rw [if_neg (by omega)]
  simp [Int.toNat_natCast]

lemma dresp_decode_shape_none (fid rid : Nat) (hfid : fid ≤ 255) (hrid : rid ≤ 255) :
    DeviceResponsePacket.decodeBody [frameTypeDeviceResponse, fid, rid, 0]
      = Except.ok ⟨fid, rid, none⟩ := by
  have hcheck : check_api_packet (envWrap [frameTypeDeviceResponse, fid, rid, 0]) 8
      = Except.ok () :=
    check_api_packet_envWrap _ _ (by simp) (by simp)
  unfold DeviceResponsePacket.decodeBody DeviceResponsePacket.create_packet
  rw [if_neg (by simp)]
  rw [hcheck]
  show DeviceResponsePacket.init (fid : Int) (rid : Int) none = Except.ok ⟨fid, rid, none⟩
  unfold DeviceResponsePacket.init
  rw [if_neg (by omega)]
  rw [if_neg (by omega)]
  simp [Int.toNat_natCast]

lemma drs_decode_shape (fid sc : Nat) (hfid : fid ≤ 255) :
    DeviceResponseStatusPacket.decodeBody [frameTypeDeviceResponseStatus, fid, sc]
      = Except.ok ⟨fid, ⟨sc⟩⟩ := by
  have hcheck : check_api_packet (envWrap [frameTypeDeviceResponseStatus, fid, sc]) 7
      = Except.ok () :=
    check_api_packet_envWrap _ _ (by simp) (by simp)
  unfold DeviceResponseStatusPacket.decodeBody DeviceResponseStatusPacket.create_packet
  rw [if_neg (by simp)]
  rw [hcheck]
  show DeviceResponseStatusPacket.init (fid : Int) (DeviceCloudStatus.get sc)
      = Except.ok ⟨fid, ⟨sc⟩⟩
  unfold DeviceResponseStatusPacket.init
  rw [if_neg (by omega)]
  simp [Int.toNat_natCast, DeviceCloudStatus.get]

lemma fe_decode_shape (ec : Nat) :
    FrameErrorPacket.decodeBody [frameTypeFrameError, ec] = Except.ok ⟨⟨ec⟩⟩ := by
  have hcheck : check_api_packet (envWrap [frameTypeFrameError, ec]) 6 = Except.ok () :=
    check_api_packet_envWrap _ _ (by simp) (by simp)
  unfold FrameErrorPacket.decodeBody FrameErrorPacket.create_packet
  rw [if_neg (by simp)]
  rw [hcheck]
  rfl

lemma sdresp_decode_shape (fid sc : Nat) (hfid : fid ≤ 255) :
    SendDataResponsePacket.decodeBody [frameTypeSendDataResponse, fid, sc]
      = Except.ok ⟨fid, ⟨sc⟩⟩ := by
  have hcheck : check_api_packet (envWrap [frameTypeSendDataResponse, fid, sc]) 7
      = Except.ok () :=
    check_api_packet_envWrap _ _ (by simp) (by simp)
  unfold SendDataResponsePacket.decodeBody SendDataResponsePacket.create_packet
  rw [if_neg (by simp)]
  rw [hcheck]
  show SendDataResponsePacket.init (fid : Int) (DeviceCloudStatus.get sc)
      = Except.ok ⟨fid, ⟨sc⟩⟩
  unfold SendDataResponsePacket.init
  rw [if_neg (by omega)]
  simp [Int.toNat_natCast, DeviceCloudStatus.get]

lemma sdreq_decode_shape (fid : Nat) (t c f : List Nat) (oc : Nat) (hfid : fid ≤ 255)
    (ht : ∀ x ∈ t, x < 0x80) (hc : ∀ x ∈ c, x < 0x80)
    (hlen : t.length + c.length + f.length ≤ 65529) :
    SendDataRequestPacket.decodeBody
        (frameTypeSendDataRequest :: fid :: t.length ::
          (t ++ (c.length :: (c ++ (0 :: oc :: f)))))
      = Except.ok ⟨fid, some t, some c, 0, ⟨oc⟩, some f⟩ := by
  have hcheck : check_api_packet
      (envWrap (frameTypeSendDataRequest :: fid :: t.length ::
        (t ++ (c.length :: (c ++ (0 :: oc :: f)))))) 10
      = Except.ok () :=
    check_api_packet_envWrap _ _ (by simp; omega) (by simp; omega)
  have h3 : pyIdx (envWrap (frameTypeSendDataRequest :: fid :: t.length ::
      (t ++ (c.length :: (c ++ (0 :: oc :: f)))))) 3
      = Except.ok frameTypeSendDataRequest := rfl
  have h4 : pyIdx (envWrap (frameTypeSendDataRequest :: fid :: t.length ::
      (t ++ (c.length :: (c ++ (0 :: oc :: f)))))) 4
      = Except.ok fid := rfl
  have h5 : pyIdx (envWrap (frameTypeSendDataRequest :: fid :: t.length ::
      (t ++ (c.length :: (c ++ (0 :: oc :: f)))))) 5
      = Except.ok t.length := rfl
  have hct : pyIdx (envWrap (frameTypeSendDataRequest :: fid :: t.length ::
      (t ++ (c.length :: (c ++ (0 :: oc :: f)))))) (6 + t.length)
      = Except.ok c.length := by
    unfold pyIdx
    simp only [envWrap, List.cons_append, List.append_assoc]
    rw [get?_cons6, get?_append_self]
    rfl
  have hopt : pyIdx (envWrap (frameTypeSendDataRequest :: fid :: t.length ::
      (t ++ (c.length :: (c ++ (0 :: oc :: f)))))) (6 + t.length + 2 + c.length)
      = Except.ok oc := by
    unfold pyIdx
    rw [(by omega : 6 + t.length + 2 + c.length = 6 + (t.length + (c.length + 2)))]
    simp only [envWrap, List.cons_append, List.append_assoc]
    rw [get?_cons6, get?_append_len, List.get?_cons_succ, get?_append_len]
    rfl
  have hpath : pySlice (envWrap (frameTypeSendDataRequest :: fid :: t.length ::
      (t ++ (c.length :: (c ++ (0 :: oc :: f)))))) 6 (6 + t.length) = t := by
    simp only [envWrap, List.cons_append, List.append_assoc]
    rw [pySlice_cons6_take]
    exact List.take_left t _
  have hcts : pySlice (envWrap (frameTypeSendDataRequest :: fid :: t.length ::
      (t ++ (c.length :: (c ++ (0 :: oc :: f))))))
      (6 + t.length + 1) (6 + t.length + 1 + c.length) = c := by
    rw [(by omega : 6 + t.length + 1 + c.length = 6 + (t.length + (1 + c.length)))]
    rw [(by omega : 6 + t.length + 1 = 6 + (t.length + 1))]
    simp only [envWrap, List.cons_append, List.append_assoc]
    rw [pySlice_cons6, pySlice_append_len, pySlice_cons1]
    exact List.take_left c _
  have hfile : pySliceToLast (envWrap (frameTypeSendDataRequest :: fid :: t.length ::
      (t ++ (c.length :: (c ++ (0 :: oc :: f))))))
      (6 + t.length + 3 + c.length) = f := by
    unfold pySliceToLast
    rw [(by omega : 6 + t.length + 3 + c.length = 6 + (t.length + (c.length + 3)))]
    rw [envWrap_dropLast, drop_cons6, List.drop_append, List.drop_succ_cons,
      List.drop_append]
    rfl
  unfold SendDataRequestPacket.decodeBody SendDataRequestPacket.create_packet
  rw [if_neg (by simp)]
  rw [hcheck]
  simp only []
  rw [h3]
  simp only []
  rw [if_neg (by simp)]
  rw [h5]
  simp only []
  rw [hct]
  simp only []
  rw [h4]
  simp only []
  rw [hpath, utf8Decode_ascii ht]
  simp only []
  rw [hcts, utf8Decode_ascii hc]
  simp only []
  rw [hopt]
  simp only []
  rw [hfile]
  unfold SendDataRequestPacket.init
  rw [if_neg (by omega)]
  simp [Int.toNat_natCast, SendDataRequestOptions.get]

lemma dresp_encode_shape_some (fid rid : Nat) (d : List Nat) (hfid : fid ≤ 255)
    (hrid : rid ≤ 255) :
    DeviceResponsePacket.encodeBody ⟨fid, rid, some d⟩
      = frameTypeDeviceResponse :: fid :: rid :: 0 :: d := by
  simp [DeviceResponsePacket.encodeBody, DeviceResponsePacket.spec_data, int_to_bytes1,
    Nat.mod_eq_of_lt (show fid < 256 by omega), Nat.mod_eq_of_lt (show rid < 256 by omega)]

lemma dresp_encode_shape_none (fid rid : Nat) (hfid : fid ≤ 255) (hrid : rid ≤ 255) :
    DeviceResponsePacket.encodeBody ⟨fid, rid, none⟩
      = [frameTypeDeviceResponse, fid, rid, 0] := by
  simp [DeviceResponsePacket.encodeBody, DeviceResponsePacket.spec_data, int_to_bytes1,
    Nat.mod_eq_of_lt (show fid < 256 by omega), Nat.mod_eq_of_lt (show rid < 256 by omega)]

lemma drs_encode_shape (fid sc : Nat) (hfid : fid ≤ 255) (hsc : sc ≤ 255) :
    DeviceResponseStatusPacket.encodeBody ⟨fid, ⟨sc⟩⟩
      = [frameTypeDeviceResponseStatus, fid, sc] := by
  simp [DeviceResponseStatusPacket.encodeBody, DeviceResponseStatusPacket.spec_data,
    int_to_bytes1, Nat.mod_eq_of_lt (show fid < 256 by omega),
    Nat.mod_eq_of_lt (show sc < 256 by omega)]

lemma fe_encode_shape (ec : Nat) (hec : ec ≤ 255) :
    FrameErrorPacket.encodeBody ⟨⟨ec⟩⟩ = [frameTypeFrameError, ec] := by
  simp [FrameErrorPacket.encodeBody, FrameErrorPacket.spec_data, int_to_bytes1,
    Nat.mod_eq_of_lt (show ec < 256 by omega)]

lemma sdresp_encode_shape (fid sc : Nat) (hfid : fid ≤ 255) (hsc : sc ≤ 255) :
    SendDataResponsePacket.encodeBody ⟨fid, ⟨sc⟩⟩
      = [frameTypeSendDataResponse, fid, sc] := by
  simp [SendDataResponsePacket.encodeBody, SendDataResponsePacket.spec_data,
    int_to_bytes1, Nat.mod_eq_of_lt (show fid < 256 by omega),
    Nat.mod_eq_of_lt (show sc < 256 by omega)]

lemma sdreq_encode_shape (fid : Nat) (t c f : List Nat) (oc : Nat) (hfid : fid ≤ 255)
    (ht : ∀ x ∈ t, x < 0x80) (hc : ∀ x ∈ c, x < 0x80)
    (htl : t.length ≤ 255) (hcl : c.length ≤ 255) (hoc : oc ≤ 255) :
    SendDataRequestPacket.encodeBody ⟨fid, some t, some c, 0, ⟨oc⟩, some f⟩
      = frameTypeSendDataRequest :: fid :: t.length ::
          (t ++ (c.length :: (c ++ (0 :: oc :: f)))) := by
  simp [SendDataRequestPacket.encodeBody, SendDataRequestPacket.spec_data, int_to_bytes1,
    Nat.mod_eq_of_lt (show fid < 256 by omega),
    Nat.mod_eq_of_lt (show t.length < 256 by omega),
    Nat.mod_eq_of_lt (show c.length < 256 by omega),
    Nat.mod_eq_of_lt (show oc < 256 by omega),
    utf8Encode_ascii ht, utf8Encode_ascii hc]

/-- Sample packets used to exercise the mutators. -/
def sampleDeviceRequest : DeviceRequestPacket := ⟨1, 0, 0, none, none⟩

def sampleDeviceResponse : DeviceResponsePacket := ⟨1, 1, none⟩

def sampleDeviceResponseStatus : DeviceResponseStatusPacket := ⟨1, ⟨0⟩⟩

def sampleSendDataRequest : SendDataRequestPacket := ⟨1, none, none, 0, ⟨0⟩, none⟩

def sampleSendDataResponse : SendDataResponsePacket := ⟨1, ⟨0⟩⟩

/-- C8: constructing or mutating `frame_id` or `request_id` with value 256
or −1 fails with a range violation, and with value 0 or 255 succeeds, on
every packet kind carrying those fields (constructors from the source;
the `frame_id` mutator modelled from the spec). -/
theorem c8_idrange_thm :
    (DeviceRequestPacket.init 256 none none = Except.error CodecError.RangeViolation) ∧
    (DeviceRequestPacket.init (-1) none none = Except.error CodecError.RangeViolation) ∧
    (DeviceRequestPacket.init 0 none none = Except.ok ⟨0, 0, 0, none, none⟩) ∧
    (DeviceRequestPacket.init 255 none none = Except.ok ⟨255, 0, 0, none, none⟩) ∧
    (DeviceResponsePacket.init 256 0 none = Except.error CodecError.RangeViolation) ∧
    (DeviceResponsePacket.init (-1) 0 none = Except.error CodecError.RangeViolation) ∧
    (DeviceResponsePacket.init 0 0 none = Except.ok ⟨0, 0, none⟩) ∧
    (DeviceResponsePacket.init 255 0 none = Except.ok ⟨255, 0, none⟩) ∧
    (DeviceResponsePacket.init 0 256 none = Except.error CodecError.RangeViolation) ∧
    (DeviceResponsePacket.init 0 (-1) none = Except.error CodecError.RangeViolation) ∧
    (DeviceResponsePacket.init 0 255 none = Except.ok ⟨0, 255, none⟩) ∧
    (DeviceResponseStatusPacket.init 256 ⟨0⟩ = Except.error CodecError.RangeViolation) ∧
    (DeviceResponseStatusPacket.init (-1) ⟨0⟩ = Except.error CodecError.RangeViolation) ∧
    (DeviceResponseStatusPacket.init 0 ⟨0⟩ = Except.ok ⟨0, ⟨0⟩⟩) ∧
    (DeviceResponseStatusPacket.init 255 ⟨0⟩ = Except.ok ⟨255, ⟨0⟩⟩) ∧
    (SendDataRequestPacket.init 256 none none ⟨0⟩ none
      = Except.error CodecError.RangeViolation) ∧
    (SendDataRequestPacket.init (-1) none none ⟨0⟩ none
      = Except.error CodecError.RangeViolation) ∧
    (SendDataRequestPacket.init 0 none none ⟨0⟩ none
      = Except.ok ⟨0, none, none, 0, ⟨0⟩, none⟩) ∧
    (SendDataRequestPacket.init 255 none none ⟨0⟩ none
      = Except.ok ⟨255, none, none, 0, ⟨0⟩, none⟩) ∧
    (SendDataResponsePacket.init 256 ⟨0⟩ = Except.error CodecError.RangeViolation) ∧
    (SendDataResponsePacket.init (-1) ⟨0⟩ = Except.error CodecError.RangeViolation) ∧
    (SendDataResponsePacket.init 0 ⟨0⟩ = Except.ok ⟨0, ⟨0⟩⟩) ∧
    (SendDataResponsePacket.init 255 ⟨0⟩ = Except.ok ⟨255, ⟨0⟩⟩) ∧
    (sampleDeviceRequest.set_request_id 256 = Except.error CodecError.RangeViolation) ∧
    (sampleDeviceRequest.set_request_id (-1) = Except.error CodecError.RangeViolation) ∧
    (sampleDeviceRequest.set_request_id 0 = Except.ok ⟨0, 0, 0, none, none⟩) ∧
    (sampleDeviceRequest.set_request_id 255 = Except.ok ⟨255, 0, 0, none, none⟩) ∧
    (sampleDeviceResponse.set_request_id 256 = Except.error CodecError.RangeViolation) ∧
    (sampleDeviceResponse.set_request_id (-1) = Except.error CodecError.RangeViolation) ∧
    (sampleDeviceResponse.set_request_id 0 = Except.ok ⟨1, 0, none⟩) ∧
    (sampleDeviceResponse.set_request_id 255 = Except.ok ⟨1, 255, none⟩) ∧
    (sampleDeviceResponse.set_frame_id 256 = Except.error CodecError.RangeViolation) ∧
    (sampleDeviceResponse.set_frame_id (-1) = Except.error CodecError.RangeViolation) ∧
    (sampleDeviceResponse.set_frame_id 0 = Except.ok ⟨0, 1, none⟩) ∧
    (sampleDeviceResponse.set_frame_id 255 = Except.ok ⟨255, 1, none⟩) ∧
    (sampleDeviceResponseStatus.set_frame_id 256 = Except.error CodecError.RangeViolation) ∧
    (sampleDeviceResponseStatus.set_frame_id (-1) = Except.error CodecError.RangeViolation) ∧
    (sampleDeviceResponseStatus.set_frame_id 0 = Except.ok ⟨0, ⟨0⟩⟩) ∧
    (sampleDeviceResponseStatus.set_frame_id 255 = Except.ok ⟨255, ⟨0⟩⟩) ∧
    (sampleSendDataRequest.set_frame_id 256 = Except.error CodecError.RangeViolation) ∧
    (sampleSendDataRequest.set_frame_id (-1) = Except.error CodecError.RangeViolation) ∧
    (sampleSendDataRequest.set_frame_id 0 = Except.ok ⟨0, none, none, 0, ⟨0⟩, none⟩) ∧
    (sampleSendDataRequest.set_frame_id 255 = Except.ok ⟨255, none, none, 0, ⟨0⟩, none⟩) ∧
    (sampleSendDataResponse.set_frame_id 256 = Except.error CodecError.RangeViolation) ∧
    (sampleSendDataResponse.set_frame_id (-1) = Except.error CodecError.RangeViolation) ∧
    (sampleSendDataResponse.set_frame_id 0 = Except.ok ⟨0, ⟨0⟩⟩) ∧
    (sampleSendDataResponse.set_frame_id 255 = Except.ok ⟨255, ⟨0⟩⟩) := by
  repeat' apply And.intro
  all_goals decide

/-- C2 counterexample: a DeviceRequest body declaring `target_len = 10`
with only 3 bytes remaining does NOT fail with a truncation error — decode
returns a packet (Python slices clamp), whose target even absorbs the
envelope checksum byte `21` and whose payload is the empty byte string. -/
theorem c2_boundscheck_cx :
    DeviceRequestPacket.decodeBody [0xB9, 1, 0, 0, 10, 97, 98, 99]
      = Except.ok ⟨1, 0, 0, some [97, 98, 99, 21], some []⟩ := by
  decide

/-- C2 amended: decode performs no bounds check on length prefixes.  For
DeviceRequest the slice clamps, so decode silently truncates and returns a
packet (the clamped region even includes the envelope checksum byte); for
SendDataRequest the following fixed-offset subscript raises an uncaught
index error.  Neither yields a `TruncatedField` decode error. -/
theorem c2_boundscheck_amended :
    (DeviceRequestPacket.decodeBody [0xB9, 1, 0, 0, 10, 97, 98, 99]
      ≠ Except.error CodecError.TruncatedField) ∧
    ((DeviceRequestPacket.decodeBody [0xB9, 1, 0, 0, 10, 97, 98, 99]).isOk = true) ∧
    (SendDataRequestPacket.decodeBody [0x28, 1, 10, 97, 98, 99]
      = Except.error CodecError.IndexOutOfRange) := by
  refine ⟨by decide, by decide, by decide⟩

set_option maxRecDepth 4000 in
/-- C3 counterexample: the `path` setter of `SendDataRequestPacket` accepts
and commits a 256-byte string (no length validation at all), and the
`target` setter of `DeviceRequestPacket` accepts a string of 128 two-byte
characters — 256 UTF-8 bytes — because it checks the code-point count, not
the UTF-8 byte length.  The claim's `LengthViolation` does not occur. -/
theorem c3_textlen_cx :
    ((SendDataRequestPacket.set_path ⟨0, none, none, 0, ⟨0⟩, none⟩
        (some (List.replicate 256 97))).path = some (List.replicate 256 97)) ∧
    (DeviceRequestPacket.set_target ⟨0, 0, 0, none, none⟩
        (some (List.replicate 128 255))
      = Except.ok ⟨0, 0, 0, some (List.replicate 128 255), none⟩) ∧
    ((utf8Encode (List.replicate 128 255)).length = 256) := by
  refine ⟨rfl, by decide, by decide⟩

set_option maxRecDepth 4000 in
/-- C3 amended: only `DeviceRequestPacket.target` is validated, and the
check is on the code-point count: at most 255 code points succeeds (even
when that is 256 UTF-8 bytes), 256 or more code points fails with a
length violation; the `path` and `content_type` setters of
`SendDataRequestPacket` perform no validation and always commit, and its
constructor accepts text of any length. -/
theorem c3_textlen_amended :
    (∀ (p : DeviceRequestPacket) (t : UStr), t.length ≤ 255 →
      p.set_target (some t) = Except.ok { p with target := some t }) ∧
    (∀ (p : DeviceRequestPacket) (t : UStr), 255 < t.length →
      p.set_target (some t) = Except.error CodecError.LengthViolation) ∧
    (∀ (p : SendDataRequestPacket) (t : Option UStr), (p.set_path t).path = t) ∧
    (∀ (p : SendDataRequestPacket) (t : Option UStr),
      (p.set_content_type t).content_type = t) ∧
    (DeviceRequestPacket.init 0 (some (List.replicate 256 97)) none
      = Except.error CodecError.LengthViolation) ∧
    (SendDataRequestPacket.init 0 (some (List.replicate 256 97))
        (some (List.replicate 256 97)) ⟨0⟩ none
      = Except.ok ⟨0, some (List.replicate 256 97), some (List.replicate 256 97),
          0, ⟨0⟩, none⟩) := by
  refine ⟨?_, ?_, fun p t => rfl, fun p t => rfl, by decide, by decide⟩
  · intro p t h
    unfold DeviceRequestPacket.set_target
    rw [if_neg (by simp; omega)]
  · intro p t h
    unfold DeviceRequestPacket.set_target
    rw [if_pos ⟨by simpa using h, by simp⟩]

set_option maxRecDepth 4000 in
/-- C3 witness: a 255-code-point (255-byte ASCII) target commits, at a
concrete packet. -/
theorem c3_textlen_witness :
    DeviceRequestPacket.set_target ⟨0, 0, 0, none, none⟩ (some (List.replicate 255 97))
      = Except.ok ⟨0, 0, 0, some (List.replicate 255 97), none⟩ :=
  c3_textlen_amended.1 ⟨0, 0, 0, none, none⟩ (List.replicate 255 97) (by decide)

/-- C4 counterexample: a DeviceRequest body of length 4 — the claim's
stated minimum — and a SendDataRequest body of length 5 — likewise — are
both rejected as too short, so the minima claimed for these two kinds are
wrong (the code's minima are 5 and 6). -/
theorem c4_minlen_cx :
    (DeviceRequestPacket.decodeBody [0xB9, 0, 0, 0]
      = Except.error CodecError.TruncatedField) ∧
    (SendDataRequestPacket.decodeBody [0x28, 0, 0, 0, 0]
      = Except.error CodecError.TruncatedField) := by
  refine ⟨by decide, by decide⟩

/-- C4 amended: the minimum total body lengths (type byte plus fixed
fields) are 5 for DeviceRequest, 4 for DeviceResponse, 3 for
DeviceResponseStatus, 2 for FrameError, 6 for SendDataRequest and 3 for
SendDataResponse; for every kind, a body shorter than that minimum fails
to decode with a truncation error and never yields a packet. -/
theorem c4_minlen_amended :
    (∀ body : List Nat, body.length < 5 →
      DeviceRequestPacket.decodeBody body = Except.error CodecError.TruncatedField) ∧
    (∀ body : List Nat, body.length < 4 →
      DeviceResponsePacket.decodeBody body = Except.error CodecError.TruncatedField) ∧
    (∀ body : List Nat, body.length < 3 →
      DeviceResponseStatusPacket.decodeBody body
        = Except.error CodecError.TruncatedField) ∧
    (∀ body : List Nat, body.length < 2 →
      FrameErrorPacket.decodeBody body = Except.error CodecError.TruncatedField) ∧
    (∀ body : List Nat, body.length < 6 →
      SendDataRequestPacket.decodeBody body = Except.error CodecError.TruncatedField) ∧
    (∀ body : List Nat, body.length < 3 →
      SendDataResponsePacket.decodeBody body = Except.error CodecError.TruncatedField) := by
  refine ⟨fun body h => ?_, fun body h => ?_, fun body h => ?_, fun body h => ?_,
    fun body h => ?_, fun body h => ?_⟩
  · unfold DeviceRequestPacket.decodeBody DeviceRequestPacket.create_packet
    rw [if_neg (by simp), check_api_packet_envWrap_short _ _ (by omega)]
  · unfold DeviceResponsePacket.decodeBody DeviceResponsePacket.create_packet
    rw [if_neg (by simp), check_api_packet_envWrap_short _ _ (by omega)]
  · unfold DeviceResponseStatusPacket.decodeBody DeviceResponseStatusPacket.create_packet
    rw [if_neg (by simp), check_api_packet_envWrap_short _ _ (by omega)]
  · unfold FrameErrorPacket.decodeBody FrameErrorPacket.create_packet
    rw [if_neg (by simp), check_api_packet_envWrap_short _ _ (by omega)]
  · unfold SendDataRequestPacket.decodeBody SendDataRequestPacket.create_packet
    rw [if_neg (by simp), check_api_packet_envWrap_short _ _ (by omega)]
  · unfold SendDataResponsePacket.decodeBody SendDataResponsePacket.create_packet
    rw [if_neg (by simp), check_api_packet_envWrap_short _ _ (by omega)]

/-- C4 witness: the empty body fails to decode for DeviceRequest with a
truncation error, via the amended theorem. -/
theorem c4_minlen_witness :
    DeviceRequestPacket.decodeBody [] = Except.error CodecError.TruncatedField :=
  c4_minlen_amended.1 [] (by decide)

/-- C9 counterexample: the one-byte body `[0]` has a leading byte different
from the DeviceRequest code, yet decoding fails with the minimum-length
truncation error, not a frame-type mismatch — the length check runs first. -/
theorem c9_frametype_cx :
    (DeviceRequestPacket.decodeBody [0] ≠ Except.error CodecError.FrameTypeMismatch) ∧
    (DeviceRequestPacket.decodeBody [0] = Except.error CodecError.TruncatedField) := by
  refine ⟨by decide, by decide⟩

/-- C9 amended: for every kind and every body of at least that kind's
minimum length (and representable in the envelope's 16-bit length field)
whose leading byte differs from the kind's code, decode fails with a
frame-type mismatch; bodies shorter than the minimum fail with the
truncation error first. -/
theorem c9_frametype_amended :
    (∀ body : List Nat, 5 ≤ body.length → body.length < 65536 →
      body.get? 0 ≠ some frameTypeDeviceRequest →
      DeviceRequestPacket.decodeBody body = Except.error CodecError.FrameTypeMismatch) ∧
    (∀ body : List Nat, 4 ≤ body.length → body.length < 65536 →
      body.get? 0 ≠ some frameTypeDeviceResponse →
      DeviceResponsePacket.decodeBody body = Except.error CodecError.FrameTypeMismatch) ∧
    (∀ body : List Nat, 3 ≤ body.length → body.length < 65536 →
      body.get? 0 ≠ some frameTypeDeviceResponseStatus →
      DeviceResponseStatusPacket.decodeBody body
        = Except.error CodecError.FrameTypeMismatch) ∧
    (∀ body : List Nat, 2 ≤ body.length → body.length < 65536 →
      body.get? 0 ≠ some frameTypeFrameError →
      FrameErrorPacket.decodeBody body = Except.error CodecError.FrameTypeMismatch) ∧
    (∀ body : List Nat, 6 ≤ body.length → body.length < 65536 →
      body.get? 0 ≠ some frameTypeSendDataRequest →
      SendDataRequestPacket.decodeBody body = Except.error CodecError.FrameTypeMismatch) ∧
    (∀ body : List Nat, 3 ≤ body.length → body.length < 65536 →
      body.get? 0 ≠ some frameTypeSendDataResponse →
      SendDataResponsePacket.decodeBody body
        = Except.error CodecError.FrameTypeMismatch) := by
  have hne : ∀ (b0 : Nat) (bs : List Nat) (c : Nat),
      (b0 :: bs).get? 0 ≠ some c → b0 ≠ c := by
    intro b0 bs c h he
    exact h (by rw [he]; rfl)
  refine ⟨?_, ?_, ?_, ?_, ?_, ?_⟩ <;> intro body h1 h2 h3
  · cases body with
    | nil => simp at h1
    | cons b0 bs =>
      unfold DeviceRequestPacket.decodeBody DeviceRequestPacket.create_packet
      rw [if_neg (by simp),
        check_api_packet_envWrap _ _ (by simpa using h2) (by simp at h1 ⊢; omega),
        pyIdx_envWrap_head]
      simp only []
      rw [if_pos (hne b0 bs _ h3)]
  · cases body with
    | nil => simp at h1
    | cons b0 bs =>
      unfold DeviceResponsePacket.decodeBody DeviceResponsePacket.create_packet
      rw [if_neg (by simp),
        check_api_packet_envWrap _ _ (by simpa using h2) (by simp at h1 ⊢; omega),
        pyIdx_envWrap_head]
      simp only []
      rw [if_pos (hne b0 bs _ h3)]
  · cases body with
    | nil => simp at h1
    | cons b0 bs =>
      unfold DeviceResponseStatusPacket.decodeBody DeviceResponseStatusPacket.create_packet
      rw [if_neg (by simp),
        check_api_packet_envWrap _ _ (by simpa using h2) (by simp at h1 ⊢; omega),
        pyIdx_envWrap_head]
      simp only []
      rw [if_pos (hne b0 bs _ h3)]
  · cases body with
    | nil => simp at h1
    | cons b0 bs =>
      unfold FrameErrorPacket.decodeBody FrameErrorPacket.create_packet
      rw [if_neg (by simp),
        check_api_packet_envWrap _ _ (by simpa using h2) (by simp at h1 ⊢; omega),
        pyIdx_envWrap_head]
      simp only []
      rw [if_pos (hne b0 bs _ h3)]
  · cases body with
    | nil => simp at h1
    | cons b0 bs =>
      unfold SendDataRequestPacket.decodeBody SendDataRequestPacket.create_packet
      rw [if_neg (by simp),
        check_api_packet_envWrap _ _ (by simpa using h2) (by simp at h1 ⊢; omega),
        pyIdx_envWrap_head]
      simp only []
      rw [if_pos (hne b0 bs _ h3)]
  · cases body with
    | nil => simp at h1
    | cons b0 bs =>
      unfold SendDataResponsePacket.decodeBody SendDataResponsePacket.create_packet
      rw [if_neg (by simp),
        check_api_packet_envWrap _ _ (by simpa using h2) (by simp at h1 ⊢; omega),
        pyIdx_envWrap_head]
      simp only []
      rw [if_pos (hne b0 bs _ h3)]

/-- C9 witness: a five-byte all-zero body (wrong leading byte, long
enough) is rejected by DeviceRequest decode as a frame-type mismatch. -/
theorem c9_frametype_witness :
    DeviceRequestPacket.decodeBody [0, 0, 0, 0, 0]
      = Except.error CodecError.FrameTypeMismatch :=
  c9_frametype_amended.1 [0, 0, 0, 0, 0] (by decide) (by decide) (by decide)

lemma dreq_decode_empty_shape (rid : Nat) (h : rid ≤ 255) :
    DeviceRequestPacket.decodeBody [frameTypeDeviceRequest, rid, 0, 0, 0]
      = Except.ok ⟨rid, 0, 0, some [], none⟩ := by
  have hcheck : check_api_packet (envWrap [frameTypeDeviceRequest, rid, 0, 0, 0]) 9
      = Except.ok () :=
    check_api_packet_envWrap _ _ (by simp) (by simp)
  unfold DeviceRequestPacket.decodeBody DeviceRequestPacket.create_packet
  rw [if_neg (by simp), hcheck]
  show DeviceRequestPacket.init (rid : Int) (some []) none
      = Except.ok ⟨rid, 0, 0, some [], none⟩
  unfold DeviceRequestPacket.init
  rw [if_neg (by omega), if_neg (by simp)]
  simp [Int.toNat_natCast]

lemma dreq_decode_atail_shape (rid : Nat) (h : rid ≤ 255) :
    DeviceRequestPacket.decodeBody [frameTypeDeviceRequest, rid, 0, 0, 1, 97]
      = Except.ok ⟨rid, 0, 0, some [97], some []⟩ := by
  have hcheck : check_api_packet (envWrap [frameTypeDeviceRequest, rid, 0, 0, 1, 97]) 9
      = Except.ok () :=
    check_api_packet_envWrap _ _ (by simp) (by simp)
  unfold DeviceRequestPacket.decodeBody DeviceRequestPacket.create_packet
  rw [if_neg (by simp), hcheck]
  show DeviceRequestPacket.init (rid : Int) (some [97]) (some [])
      = Except.ok ⟨rid, 0, 0, some [97], some []⟩
  unfold DeviceRequestPacket.init
  rw [if_neg (by omega), if_neg (by simp)]
  simp [Int.toNat_natCast]

lemma sdreq_decode_empty_shape (fid oc : Nat) (h : fid ≤ 255) :
    SendDataRequestPacket.decodeBody [frameTypeSendDataRequest, fid, 0, 0, 0, oc]
      = Except.ok ⟨fid, some [], some [], 0, ⟨oc⟩, some []⟩ := by
  have hcheck : check_api_packet (envWrap [frameTypeSendDataRequest, fid, 0, 0, 0, oc]) 10
      = Except.ok () :=
    check_api_packet_envWrap _ _ (by simp) (by simp)
  unfold SendDataRequestPacket.decodeBody SendDataRequestPacket.create_packet
  rw [if_neg (by simp), hcheck]
  show SendDataRequestPacket.init (fid : Int) (some []) (some [])
      (SendDataRequestOptions.get oc) (some [])
      = Except.ok ⟨fid, some [], some [], 0, ⟨oc⟩, some []⟩
  unfold SendDataRequestPacket.init
  rw [if_neg (by omega)]
  simp [Int.toNat_natCast, SendDataRequestOptions.get]

/-- C6 counterexample: decoding a DeviceRequest body whose `target_len`
prefix is 0 yields `target = some ""` — the present empty string — not the
absent state. -/
theorem c6_zeroprefix_cx :
    (DeviceRequestPacket.decodeBody [0xB9, 5, 0, 0, 0]
      = Except.ok ⟨5, 0, 0, some [], none⟩) ∧
    ((⟨5, 0, 0, some [], none⟩ : DeviceRequestPacket).target ≠ none) := by
  refine ⟨by decide, by decide⟩

/-- C6 amended: decoding a zero length prefix yields the present empty
string (never the absent state), and subsequent fields are read from the
positions immediately after the prefix: for SendDataRequest with both
prefixes zero, the options byte is read correctly and the trailing
payload is the empty byte string. -/
theorem c6_zeroprefix_amended :
    (∀ rid : Nat, rid ≤ 255 →
      DeviceRequestPacket.decodeBody [frameTypeDeviceRequest, rid, 0, 0, 0]
        = Except.ok ⟨rid, 0, 0, some [], none⟩) ∧
    (∀ fid oc : Nat, fid ≤ 255 →
      SendDataRequestPacket.decodeBody [frameTypeSendDataRequest, fid, 0, 0, 0, oc]
        = Except.ok ⟨fid, some [], some [], 0, ⟨oc⟩, some []⟩) ∧
    ((some ([] : UStr) : Option UStr) ≠ none) := by
  exact ⟨fun rid h => dreq_decode_empty_shape rid h,
    fun fid oc h => sdreq_decode_empty_shape fid oc h, by decide⟩

/-- C6 witness: concrete decodes with zero length prefixes, through the
amended theorem. -/
theorem c6_zeroprefix_witness :
    (DeviceRequestPacket.decodeBody [frameTypeDeviceRequest, 9, 0, 0, 0]
      = Except.ok ⟨9, 0, 0, some [], none⟩) ∧
    (SendDataRequestPacket.decodeBody [frameTypeSendDataRequest, 9, 0, 0, 0, 2]
      = Except.ok ⟨9, some [], some [], 0, ⟨2⟩, some []⟩) :=
  ⟨c6_zeroprefix_amended.1 9 (by decide), c6_zeroprefix_amended.2.1 9 2 (by decide)⟩

/-- C5 counterexample: a DeviceRequest body with a nonempty target and
zero trailing payload bytes decodes to `request_data = some b''` — an
empty byte string — while a packet constructed with the payload absent
has `request_data = none`: the two are distinguishable through the
`request_data` accessor. -/
theorem c5_nopayload_cx :
    (DeviceRequestPacket.decodeBody [0xB9, 1, 0, 0, 1, 97]
      = Except.ok ⟨1, 0, 0, some [97], some []⟩) ∧
    (DeviceRequestPacket.init 1 (some [97]) none
      = Except.ok ⟨1, 0, 0, some [97], none⟩) ∧
    ((⟨1, 0, 0, some [97], some []⟩ : DeviceRequestPacket).req_data = some []) ∧
    ((⟨1, 0, 0, some [97], none⟩ : DeviceRequestPacket).req_data = none) ∧
    ((some ([] : List Nat) : Option (List Nat)) ≠ none) := by
  refine ⟨by decide, by decide, rfl, rfl, by decide⟩

/-- C5 amended: the absent/zero-length collapse holds for DeviceResponse
always, and for DeviceRequest only when the decoded target is empty; with
a nonempty target, zero trailing bytes decode to the present empty
payload, which is distinguishable from the absent payload. -/
theorem c5_nopayload_amended :
    (∀ fid rid : Nat, fid ≤ 255 → rid ≤ 255 →
      DeviceResponsePacket.decodeBody [frameTypeDeviceResponse, fid, rid, 0]
          = Except.ok ⟨fid, rid, none⟩ ∧
        DeviceResponsePacket.init (fid : Int) (rid : Int) none
          = Except.ok ⟨fid, rid, none⟩) ∧
    (∀ rid : Nat, rid ≤ 255 →
      DeviceRequestPacket.decodeBody [frameTypeDeviceRequest, rid, 0, 0, 0]
        = Except.ok ⟨rid, 0, 0, some [], none⟩) ∧
    (∀ rid : Nat, rid ≤ 255 →
      DeviceRequestPacket.decodeBody [frameTypeDeviceRequest, rid, 0, 0, 1, 97]
        = Except.ok ⟨rid, 0, 0, some [97], some []⟩) ∧
    ((some ([] : List Nat) : Option (List Nat)) ≠ none) := by
  refine ⟨fun fid rid h1 h2 => ⟨dresp_decode_shape_none fid rid h1 h2, ?_⟩,
    fun rid h => dreq_decode_empty_shape rid h,
    fun rid h => dreq_decode_atail_shape rid h, by decide⟩
  unfold DeviceResponsePacket.init
  rw [if_neg (by omega), if_neg (by omega)]
  simp [Int.toNat_natCast]

/-- C5 witness: concrete instances through the amended theorem. -/
theorem c5_nopayload_witness :
    (DeviceResponsePacket.decodeBody [frameTypeDeviceResponse, 3, 4, 0]
      = Except.ok ⟨3, 4, none⟩) ∧
    (DeviceRequestPacket.decodeBody [frameTypeDeviceRequest, 3, 0, 0, 1, 97]
      = Except.ok ⟨3, 0, 0, some [97], some []⟩) :=
  ⟨(c5_nopayload_amended.1 3 4 (by decide) (by decide)).1,
    c5_nopayload_amended.2.2.1 3 (by decide)⟩

/-- C7 counterexample: `DeviceRequestPacket.__init__` stores the caller's
buffer object without copying, so mutating the caller's buffer after
construction changes the packet's observable payload. -/
theorem c7_ownership_cx :
    (DeviceRequestMem.observe ⟨[[1, 2, 3]]⟩ (DeviceRequestMem.init 7 none (some 0))
      = some [1, 2, 3]) ∧
    (DeviceRequestMem.observe (Store.write ⟨[[1, 2, 3]]⟩ 0 [9])
        (DeviceRequestMem.init 7 none (some 0))
      = some [9]) ∧
    ((some [9] : Option (List Nat)) ≠ some [1, 2, 3]) := by
  refine ⟨rfl, rfl, by decide⟩

/-- C7 amended: the payload setters store a copy and the getters return a
copy, so mutation cannot cross in either direction through them; but the
constructors of `DeviceRequestPacket` and `SendDataRequestPacket` bind the
caller's buffer itself, so mutating the caller's buffer after construction
does change the packet's observable payload. -/
theorem c7_ownership_amended :
    (∀ (s : Store) (p : DeviceRequestMem) (r : Nat) (v : List Nat),
      r < s.bufs.length →
      DeviceRequestMem.observe
          (Store.write (DeviceRequestMem.request_data_set s p (some r)).1 r v)
          (DeviceRequestMem.request_data_set s p (some r)).2
        = some (s.read r)) ∧
    (∀ (s : Store) (p : DeviceRequestMem) (r : Nat) (v : List Nat),
      p.req_data = some r → r < s.bufs.length →
      (DeviceRequestMem.request_data_get s p).2 = some s.bufs.length ∧
      DeviceRequestMem.observe
          (Store.write (DeviceRequestMem.request_data_get s p).1 s.bufs.length v) p
        = some (s.read r)) ∧
    (∀ (s : Store) (rid : Nat) (t : Option UStr) (r : Nat) (v : List Nat),
      r < s.bufs.length →
      DeviceRequestMem.observe (s.write r v) (DeviceRequestMem.init rid t (some r))
        = some v) ∧
    (∀ (s : Store) (p : SendDataRequestMem) (r : Nat) (v : List Nat),
      r < s.bufs.length →
      SendDataRequestMem.observe
          (Store.write (SendDataRequestMem.file_data_set s p (some r)).1 r v)
          (SendDataRequestMem.file_data_set s p (some r)).2
        = some (s.read r)) ∧
    (∀ (s : Store) (p : SendDataRequestMem) (r : Nat) (v : List Nat),
      p.file_data = some r → r < s.bufs.length →
      (SendDataRequestMem.file_data_get s p).2 = some s.bufs.length ∧
      SendDataRequestMem.observe
          (Store.write (SendDataRequestMem.file_data_get s p).1 s.bufs.length v) p
        = some (s.read r)) ∧
    (∀ (s : Store) (fid : Nat) (r : Nat) (v : List Nat),
      r < s.bufs.length →
      SendDataRequestMem.observe (s.write r v)
          (SendDataRequestMem.init fid none none ⟨0⟩ (some r))
        = some v) := by
  refine ⟨?_, ?_, ?_, ?_, ?_, ?_⟩
  · intro s p r v h
    simp only [DeviceRequestMem.request_data_set, DeviceRequestMem.observe,
      Option.map_some']
    rw [show (Store.alloc s (s.read r)).2 = s.bufs.length from rfl,
      Store.read_write_ne _ _ _ _ (by omega), Store.read_alloc_new]
  · intro s p r v hp h
    simp only [DeviceRequestMem.request_data_get, hp, DeviceRequestMem.observe,
      Option.map_some']
    exact ⟨rfl, by rw [Store.read_write_ne _ _ _ _ (by omega), Store.read_alloc_lt _ _ _ h]⟩
  · intro s rid t r v h
    simp only [DeviceRequestMem.init, DeviceRequestMem.observe, Option.map_some']
    simp only [Store.read, Store.write, List.getD, List.get?_eq_getElem?]
    rw [List.getElem?_set_self (by simpa using h)]
    rfl
  · intro s p r v h
    simp only [SendDataRequestMem.file_data_set, SendDataRequestMem.observe,
      Option.map_some']
    rw [show (Store.alloc s (s.read r)).2 = s.bufs.length from rfl,
      Store.read_write_ne _ _ _ _ (by omega), Store.read_alloc_new]
  · intro s p r v hp h
    simp only [SendDataRequestMem.file_data_get, hp, SendDataRequestMem.observe,
      Option.map_some']
    exact ⟨rfl, by rw [Store.read_write_ne _ _ _ _ (by omega), Store.read_alloc_lt _ _ _ h]⟩
  · intro s fid r v h
    simp only [SendDataRequestMem.init, SendDataRequestMem.observe, Option.map_some']
    simp only [Store.read, Store.write, List.getD, List.get?_eq_getElem?]
    rw [List.getElem?_set_self (by simpa using h)]
    rfl

/-- C7 witness: concrete instances through the amended theorem: mutating
the caller's buffer after a setter does not change the packet, and a
caller's mutation after construction does reach the packet. -/
theorem c7_ownership_witness :
    (DeviceRequestMem.observe
        (Store.write (DeviceRequestMem.request_data_set ⟨[[1, 2, 3]]⟩ ⟨7, none, none⟩
          (some 0)).1 0 [9])
        (DeviceRequestMem.request_data_set ⟨[[1, 2, 3]]⟩ ⟨7, none, none⟩ (some 0)).2
      = some [1, 2, 3]) ∧
    (DeviceRequestMem.observe (Store.write ⟨[[1, 2, 3]]⟩ 0 [9])
        (DeviceRequestMem.init 7 none (some 0))
      = some [9]) :=
  ⟨c7_ownership_amended.1 ⟨[[1, 2, 3]]⟩ ⟨7, none, none⟩ 0 [9] (by decide),
    c7_ownership_amended.2.2.1 ⟨[[1, 2, 3]]⟩ 7 none 0 [9] (by decide)⟩

/-- C10: decoding a SendDataRequest always yields a present (possibly
zero-length) `file_data`; a body with zero trailing bytes decodes to the
present empty byte string, observably distinct from a packet constructed
with `file_data` absent. -/
theorem c10_filedata_thm :
    (∀ (raw : List Nat) (mode : OperatingMode) (p : SendDataRequestPacket),
      SendDataRequestPacket.create_packet raw mode = Except.ok p →
      p.file_data ≠ none) ∧
    (SendDataRequestPacket.decodeBody [frameTypeSendDataRequest, 3, 0, 0, 0, 0]
      = Except.ok ⟨3, some [], some [], 0, ⟨0⟩, some []⟩) ∧
    (SendDataRequestPacket.init 3 (some []) (some []) ⟨0⟩ none
      = Except.ok ⟨3, some [], some [], 0, ⟨0⟩, none⟩) ∧
    ((⟨3, some [], some [], 0, ⟨0⟩, some []⟩ : SendDataRequestPacket).file_data
      = some []) ∧
    ((⟨3, some [], some [], 0, ⟨0⟩, none⟩ : SendDataRequestPacket).file_data = none) ∧
    ((some ([] : List Nat) : Option (List Nat)) ≠ none) := by
  refine ⟨?_, sdreq_decode_empty_shape 3 0 (by decide), by decide, rfl, rfl, by decide⟩
  intro raw mode p h
  unfold SendDataRequestPacket.create_packet at h
  split at h
  · exact absurd h (by simp)
  split at h
  · exact absurd h (by simp)
  split at h
  · exact absurd h (by simp)
  split at h
  · exact absurd h (by simp)
  split at h
  · exact absurd h (by simp)
  split at h
  · exact absurd h (by simp)
  split at h
  · exact absurd h (by simp)
  split at h
  · exact absurd h (by simp)
  split at h
  · exact absurd h (by simp)
  split at h
  · exact absurd h (by simp)
  unfold SendDataRequestPacket.init at h
  split at h
  · exact absurd h (by simp)
  · rw [show p = ⟨_, _, _, _, _, _⟩ from (Except.ok.inj h).symm]
    simp

/-- C10 witness: applying the presence theorem at a concrete decoded
packet. -/
theorem c10_filedata_witness :
    (⟨3, some [], some [], 0, ⟨0⟩, some []⟩ : SendDataRequestPacket).file_data ≠ none :=
  c10_filedata_thm.1 (envWrap [frameTypeSendDataRequest, 3, 0, 0, 0, 0])
    OperatingMode.API_MODE ⟨3, some [], some [], 0, ⟨0⟩, some []⟩ (by decide)

/-- C1 counterexample: a DeviceRequest constructed with a one-byte target
and an absent payload does not round-trip: the encoded body has bytes
after the minimum length, so decode materializes `request_data = some b''`
instead of the absent payload. -/
theorem c1_roundtrip_cx :
    (DeviceRequestPacket.init 0 (some [97]) none
      = Except.ok ⟨0, 0, 0, some [97], none⟩) ∧
    (DeviceRequestPacket.decodeBody
        (DeviceRequestPacket.encodeBody ⟨0, 0, 0, some [97], none⟩)
      ≠ Except.ok ⟨0, 0, 0, some [97], none⟩) := by
  refine ⟨by decide, by decide⟩

/-- C1 amended: construct–encode–decode is the identity on all six kinds
for field values in range, provided additionally that text fields are
present, ASCII (so that the code-point count written as the length prefix
equals the UTF-8 byte count) and at most 255 code points, that the
DeviceRequest payload is present with target and payload not both empty,
that the DeviceResponse payload is absent or nonempty, that the
SendDataRequest payload is present, and that bodies fit the envelope's
16-bit length field.  Outside these conditions the absent/empty states
collapse on the wire (or the length prefix miscounts non-ASCII text) and
the round trip fails. -/
theorem c1_roundtrip_amended :
    (∀ (rid : Nat) (t d : List Nat), rid ≤ 255 → (∀ x ∈ t, x < 0x80) →
      t.length ≤ 255 → t.length + d.length ≠ 0 → t.length + d.length ≤ 65530 →
      DeviceRequestPacket.init rid (some t) (some d)
          = Except.ok ⟨rid, 0, 0, some t, some d⟩ ∧
        DeviceRequestPacket.decodeBody
            (DeviceRequestPacket.encodeBody ⟨rid, 0, 0, some t, some d⟩)
          = Except.ok ⟨rid, 0, 0, some t, some d⟩) ∧
    (∀ fid rid : Nat, fid ≤ 255 → rid ≤ 255 →
      DeviceResponsePacket.decodeBody
          (DeviceResponsePacket.encodeBody ⟨fid, rid, none⟩)
        = Except.ok ⟨fid, rid, none⟩) ∧
    (∀ (fid rid : Nat) (d : List Nat), fid ≤ 255 → rid ≤ 255 → d ≠ [] →
      d.length ≤ 65531 →
      DeviceResponsePacket.decodeBody
          (DeviceResponsePacket.encodeBody ⟨fid, rid, some d⟩)
        = Except.ok ⟨fid, rid, some d⟩) ∧
    (∀ fid sc : Nat, fid ≤ 255 → sc ≤ 255 →
      DeviceResponseStatusPacket.decodeBody
          (DeviceResponseStatusPacket.encodeBody ⟨fid, ⟨sc⟩⟩)
        = Except.ok ⟨fid, ⟨sc⟩⟩) ∧
    (∀ ec : Nat, ec ≤ 255 →
      FrameErrorPacket.decodeBody (FrameErrorPacket.encodeBody ⟨⟨ec⟩⟩)
        = Except.ok ⟨⟨ec⟩⟩) ∧
    (∀ (fid : Nat) (t c f : List Nat) (oc : Nat), fid ≤ 255 →
      (∀ x ∈ t, x < 0x80) → (∀ x ∈ c, x < 0x80) → t.length ≤ 255 →
      c.length ≤ 255 → oc ≤ 255 → t.length + c.length + f.length ≤ 65529 →
      SendDataRequestPacket.init fid (some t) (some c) ⟨oc⟩ (some f)
          = Except.ok ⟨fid, some t, some c, 0, ⟨oc⟩, some f⟩ ∧
        SendDataRequestPacket.decodeBody
            (SendDataRequestPacket.encodeBody ⟨fid, some t, some c, 0, ⟨oc⟩, some f⟩)
          = Except.ok ⟨fid, some t, some c, 0, ⟨oc⟩, some f⟩) ∧
    (∀ fid sc : Nat, fid ≤ 255 → sc ≤ 255 →
      SendDataResponsePacket.decodeBody
          (SendDataResponsePacket.encodeBody ⟨fid, ⟨sc⟩⟩)
        = Except.ok ⟨fid, ⟨sc⟩⟩) := by
  refine ⟨?_, ?_, ?_, ?_, ?_, ?_, ?_⟩
  · intro rid t d h1 h2 h3 h4 h5
    constructor
    · unfold DeviceRequestPacket.init
      rw [if_neg (by omega), if_neg (by simp; omega)]
      simp [Int.toNat_natCast]
    · rw [dreq_encode_shape rid t d h1 h2 h3]
      exact dreq_decode_shape rid t d h1 h2 h3 h4 h5
  · intro fid rid h1 h2
    rw [dresp_encode_shape_none fid rid h1 h2]
    exact dresp_decode_shape_none fid rid h1 h2
  · intro fid rid d h1 h2 h3 h4
    rw [dresp_encode_shape_some fid rid d h1 h2]
    exact dresp_decode_shape_some fid rid d h1 h2 h3 h4
  · intro fid sc h1 h2
    rw [drs_encode_shape fid sc h1 h2]
    exact drs_decode_shape fid sc h1
  · intro ec h
    rw [fe_encode_shape ec h]
    exact fe_decode_shape ec
  · intro fid t c f oc h1 h2 h3 h4 h5 h6 h7
    constructor
    · unfold SendDataRequestPacket.init
      rw [if_neg (by omega)]
      simp [Int.toNat_natCast]
    · rw [sdreq_encode_shape fid t c f oc h1 h2 h3 h4 h5 h6]
      exact sdreq_decode_shape fid t c f oc h1 h2 h3 h7
  · intro fid sc h1 h2
    rw [sdresp_encode_shape fid sc h1 h2]
    exact sdresp_decode_shape fid sc h1

/-- C1 witness: concrete round trips for three kinds, through the amended
theorem. -/
theorem c1_roundtrip_witness :
    (DeviceRequestPacket.decodeBody
        (DeviceRequestPacket.encodeBody ⟨7, 0, 0, some [97], some [1, 2]⟩)
      = Except.ok ⟨7, 0, 0, some [97], some [1, 2]⟩) ∧
    (DeviceResponseStatusPacket.decodeBody
        (DeviceResponseStatusPacket.encodeBody ⟨7, ⟨3⟩⟩)
      = Except.ok ⟨7, ⟨3⟩⟩) ∧
    (SendDataRequestPacket.decodeBody
        (SendDataRequestPacket.encodeBody ⟨3, some [97], some [98, 99], 0, ⟨1⟩,
          some [5]⟩)
      = Except.ok ⟨3, some [97], some [98, 99], 0, ⟨1⟩, some [5]⟩) :=
  ⟨(c1_roundtrip_amended.1 7 [97] [1, 2] (by decide) (by decide) (by decide)
      (by decide) (by decide)).2,
    c1_roundtrip_amended.2.2.2.1 7 3 (by decide) (by decide),
    (c1_roundtrip_amended.2.2.2.2.2.1 3 [97] [98, 99] [5] 1 (by decide) (by decide)
      (by decide) (by decide) (by decide) (by decide) (by decide)).2⟩
